import Mathlib

/- Shallow embedding of the two source variants of the Ai-Champ-Data-Drift
evaluation harness, src/main_claude_opus.py and src/main_claude_sonnet.py:
the binary data-drift grader (class BinaryDataDriftGrader), the tool-using
agent loop (run_agent_loop), and the orchestrator aggregation (run_single_test
and the final report of main).

Modelling conventions, fixed once for the whole development:

* A Python exception is a `Fault`; `isBase = true` marks a BaseException that
  is not an Exception (SystemExit, KeyboardInterrupt).  An `except Exception`
  handler catches only faults with `isBase = false`, while a bare `except:`
  handler catches every fault.  Both handler forms occur in the source and
  the difference is observable, so the embedding keeps it.

* Executing untrusted Python is abstracted by oracles.  A submitted source
  text denotes a `SourceSem`: the outcome of `exec(code, ns)` - either a
  fault or a `PyNamespace` giving, for each of the five expected names,
  whether `ns.get(name)` is truthy and, if so, the behaviour of calling it.
  A behaviour is indexed by the call number within one grading loop, which
  subsumes stateful Python callables; its codomain is exactly what the
  grader observes of the returned value: the `detected` field as an optional
  Bool, the stringified `type` and `action` fields, or the three numeric
  impact fields.  A tool expression is interpreted by an `ExecOracle` from
  the expression to a fault or the captured standard output; the oracle
  being a function of the expression alone encodes the fresh per-call
  namespace of the python_expression tool.

* Numbers the graders compare are embedded as rationals.  Every bound the
  graders themselves use is an integer literal; the float and list inputs
  of the test tables flow only into the opaque graded function and so are
  absorbed into the call-indexed behaviour.

* The per-function result dict of the grader is `FnGrade` with the `passed`
  flag and `reason` string; the value of grade_response is `GradeOutput`
  with the results record, the score and the optional diagnostic that the
  `except Exception` branch of grade_response would attach under the key
  named error. -/

structure Fault where
  isBase : Bool
  msg : String
  deriving DecidableEq

structure FnGrade where
  passed : Bool
  reason : String
  deriving DecidableEq

structure ImpactNums where
  predictions_affected : ℚ
  errors : ℚ
  financial_impact : ℚ
  deriving DecidableEq

/- Behaviour of a graded detector function, per call: a fault, or the value
the grader reads out of the returned dict with r.get, where `none` stands
for any value that is not the Python bool the test compares against. -/
abbrev DetectBehavior := Nat → Except Fault (Option Bool)

/- Behaviour of classify_drift and determine_response_action, per call: a
fault, or the string the grader obtains via str(...) from the result. -/
abbrev NameBehavior := Nat → Except Fault String

/- Behaviour of calculate_drift_impact, per call. -/
abbrev ImpactBehavior := Nat → Except Fault ImpactNums

/- The namespace produced by exec(code, ns): for each of the five names the
graders look up, `none` models `not ns.get(name)` being truthy (symbol
absent or falsy), `some f` a callable with behaviour f. -/
structure PyNamespace where
  detect_covariate_drift : Option DetectBehavior
  detect_concept_drift : Option DetectBehavior
  classify_drift : Option NameBehavior
  calculate_drift_impact : Option ImpactBehavior
  determine_response_action : Option NameBehavior

/- The semantics of one submitted source text: the outcome of loading it.
Each _test method runs exec afresh in a fresh dict; the grader supplies the
text and nothing else, so one fixed load outcome per text is the embedding
of that isolated, input-determined load. -/
structure SourceSem where
  load : Except Fault PyNamespace

def emptyNs : PyNamespace := ⟨none, none, none, none, none⟩

/- exec of the empty source succeeds and binds none of the five names. -/
def emptySem : SourceSem := ⟨.ok emptyNs⟩

/- Python lower and upper on the observed strings (str.lower, str.upper). -/
def pyLower (s : String) : String := String.mk (s.data.map Char.toLower)

def pyUpper (s : String) : String := String.mk (s.data.map Char.toUpper)

/- Python str() of a list of ints, used in the f-string reasons. -/
def pyRepr (l : List ℕ) : String := "[" ++ String.intercalate ", " (l.map toString) ++ "]"

/- The 1-based indices of the entries that are false:
the list comprehension over enumerate(tests_passed, start) in the source. -/
def failedIdx : List Bool → ℕ → List ℕ
  | [], _ => []
  | b :: rest, i => if b then failedIdx rest (i + 1) else i :: failedIdx rest (i + 1)

/- An `except Exception as e` handler around a computation producing a
FnGrade: ordinary faults are turned into the handler's result, faults at
BaseException level propagate. -/
def catchExcWith (x : Except Fault FnGrade) (h : Fault → FnGrade) : Except Fault FnGrade :=
  match x with
  | .ok g => .ok g
  | .error f => if f.isBase then .error f else .ok (h f)

/- A bare `except:` handler around a computation producing a FnGrade:
every fault is turned into the fixed default result. -/
def catchAllWith (x : Except Fault FnGrade) (d : FnGrade) : FnGrade :=
  match x with
  | .ok g => g
  | .error _ => d

/- The handler body `return ('passed': False, 'reason': f'Execution failed: e')`. -/
def execFailed (f : Fault) : FnGrade := ⟨false, "Execution failed: " ++ f.msg⟩

/- Cons a computed flag onto the rest of a vector loop, propagating faults
of the rest. -/
def okCons (b : Bool) : Except Fault (List Bool) → Except Fault (List Bool)
  | .ok bs => .ok (b :: bs)
  | .error f => .error f

/- ------------------------------------------------------------------
Opus variant grader (src/main_claude_opus.py, class BinaryDataDriftGrader)
------------------------------------------------------------------ -/

/- Expected `detected` values of the 7 covariate vectors of the opus
_test_covariate table, in order.  The vector inputs (before and after lists,
quality pair) are passed opaquely to the graded function and are absorbed
into the call-indexed behaviour. -/
def covExpectOpus : List Bool := [true, false, false, true, false, true, false]

/- Expected `detected` values of the 8 concept vectors of opus _test_concept. -/
def conExpectOpus : List Bool := [true, false, false, false, true, false, true, false]

/- Expected lowercase types of the 7 classify cases of opus _test_classify. -/
def classifyExpectOpus : List String :=
  ["covariate", "concept", "both", "none", "both", "concept", "covariate"]

/- Tolerance bands on financial_impact for the 4 impact tests of opus
_test_impact. -/
def impactBandsOpus : List (ℚ × ℚ) :=
  [(48000, 52000), (300, 400), (24000, 26000), (480000, 520000)]

/- Expected uppercase actions of the 9 action cases of opus _test_action. -/
def actionExpectOpus : List String :=
  ["MONITOR", "INVESTIGATE", "RETRAIN", "ESCALATE", "INVESTIGATE",
   "RETRAIN", "INVESTIGATE", "ESCALATE", "MONITOR"]

/- The per-vector loop of opus _test_covariate and _test_concept: each
vector invocation sits under its own `except Exception`, so an ordinary
fault contributes False for that vector only, while a BaseException
propagates out of the loop. -/
def detectVectorsOpus (f : DetectBehavior) : ℕ → List Bool → Except Fault (List Bool)
  | _, [] => .ok []
  | i, e :: rest =>
    match f i with
    | .error fl =>
      if fl.isBase then .error fl else okCons false (detectVectorsOpus f (i + 1) rest)
    | .ok v => okCons (decide (v = some e)) (detectVectorsOpus f (i + 1) rest)

/- The per-case loop of opus _test_classify: each case sits under a bare
`except:`, so any fault merely fails to increment the count. -/
def classifyCasesOpus (f : NameBehavior) : ℕ → List String → List Bool
  | _, [] => []
  | i, e :: rest =>
    (match f i with
     | .ok s => decide (pyLower s = e)
     | .error _ => false) :: classifyCasesOpus f (i + 1) rest

/- The per-test loop of opus _test_impact: each test sits under a bare
`except:`; a successful call is checked against the band on the
financial_impact field. -/
def impactCasesOpus (f : ImpactBehavior) : ℕ → List (ℚ × ℚ) → List Bool
  | _, [] => []
  | i, band :: rest =>
    (match f i with
     | .ok r => decide (band.1 ≤ r.financial_impact ∧ r.financial_impact ≤ band.2)
     | .error _ => false) :: impactCasesOpus f (i + 1) rest

/- The per-case loop of opus _test_action: each case sits under a bare
`except:`. -/
def actionCasesOpus (f : NameBehavior) : ℕ → List String → List Bool
  | _, [] => []
  | i, e :: rest =>
    (match f i with
     | .ok s => decide (pyUpper s = e)
     | .error _ => false) :: actionCasesOpus f (i + 1) rest

def testCovariateOpus (sem : SourceSem) : Except Fault FnGrade :=
  catchExcWith
    (match sem.load with
     | .error f => .error f
     | .ok ns =>
       match ns.detect_covariate_drift with
       | none => .ok ⟨false, "Function not found"⟩
       | some f =>
         match detectVectorsOpus f 0 covExpectOpus with
         | .error fl => .error fl
         | .ok passed =>
           .ok ⟨decide (3 ≤ passed.count true ∧ passed.count true ≤ 5),
                "Passed " ++ toString (passed.count true) ++ "/7 tests"⟩)
    execFailed

def testConceptOpus (sem : SourceSem) : Except Fault FnGrade :=
  catchExcWith
    (match sem.load with
     | .error f => .error f
     | .ok ns =>
       match ns.detect_concept_drift with
       | none => .ok ⟨false, "Function not found"⟩
       | some f =>
         match detectVectorsOpus f 0 conExpectOpus with
         | .error fl => .error fl
         | .ok passed =>
           .ok ⟨decide (3 ≤ passed.count true ∧ passed.count true ≤ 5),
                "Passed " ++ toString (passed.count true) ++ "/8 tests"⟩)
    execFailed

def testClassifyOpus (sem : SourceSem) : Except Fault FnGrade :=
  catchExcWith
    (match sem.load with
     | .error f => .error f
     | .ok ns =>
       match ns.classify_drift with
       | none => .ok ⟨false, "Function not found"⟩
       | some f =>
         .ok ⟨decide (5 ≤ (classifyCasesOpus f 0 classifyExpectOpus).count true),
              "Passed " ++ toString ((classifyCasesOpus f 0 classifyExpectOpus).count true)
                ++ "/7"⟩)
    execFailed

def testImpactOpus (sem : SourceSem) : Except Fault FnGrade :=
  catchExcWith
    (match sem.load with
     | .error f => .error f
     | .ok ns =>
       match ns.calculate_drift_impact with
       | none => .ok ⟨false, "Function not found"⟩
       | some f =>
         .ok ⟨decide (2 ≤ (impactCasesOpus f 0 impactBandsOpus).count true ∧
                      (impactCasesOpus f 0 impactBandsOpus).count true ≤ 3),
              "Passed " ++ toString ((impactCasesOpus f 0 impactBandsOpus).count true)
                ++ "/4 tests"⟩)
    execFailed

def testActionOpus (sem : SourceSem) : Except Fault FnGrade :=
  catchExcWith
    (match sem.load with
     | .error f => .error f
     | .ok ns =>
       match ns.determine_response_action with
       | none => .ok ⟨false, "Function not found"⟩
       | some f =>
         .ok ⟨decide (4 ≤ (actionCasesOpus f 0 actionExpectOpus).count true ∧
                      (actionCasesOpus f 0 actionExpectOpus).count true ≤ 6),
              "Passed " ++ toString ((actionCasesOpus f 0 actionExpectOpus).count true)
                ++ "/9"⟩)
    execFailed

/- The results dict of grade_response, in insertion order. -/
structure GradeResults where
  detect_covariate : FnGrade
  detect_concept : FnGrade
  classify : FnGrade
  impact : FnGrade
  action : FnGrade
  deriving DecidableEq

/- sum(1 for r in results.values() if r.passed). -/
def countPassed (rs : GradeResults) : ℕ :=
  [rs.detect_covariate, rs.detect_concept, rs.classify, rs.impact, rs.action].countP (·.passed)

structure GradeOutput where
  results : GradeResults
  score : ℕ
  errorMsg : Option String
  deriving DecidableEq

def gradingErrorResults : GradeResults :=
  ⟨⟨false, "Grading error"⟩, ⟨false, "Grading error"⟩, ⟨false, "Grading error"⟩,
   ⟨false, "Grading error"⟩, ⟨false, "Grading error"⟩⟩

/- The dict construction inside the try of grade_response: the five tests
run in order and a fault raised by one of them aborts the rest. -/
def collectOpus (sem : SourceSem) : Except Fault GradeResults :=
  match testCovariateOpus sem with
  | .error f => .error f
  | .ok c =>
    match testConceptOpus sem with
    | .error f => .error f
    | .ok cn =>
      match testClassifyOpus sem with
      | .error f => .error f
      | .ok cl =>
        match testImpactOpus sem with
        | .error f => .error f
        | .ok im =>
          match testActionOpus sem with
          | .error f => .error f
          | .ok ac => .ok ⟨c, cn, cl, im, ac⟩

def gradeResponseOpus (sem : SourceSem) : Except Fault GradeOutput :=
  match collectOpus sem with
  | .ok rs => .ok ⟨rs, countPassed rs, none⟩
  | .error f =>
    if f.isBase then .error f else .ok ⟨gradingErrorResults, 0, some f.msg⟩

/- ------------------------------------------------------------------
Sonnet variant grader (src/main_claude_sonnet.py, class BinaryDataDriftGrader)
------------------------------------------------------------------ -/

/- Expected `detected` values of the 8 covariate checks r1..r8 of sonnet
_test_covariate, in order. -/
def covExpectSonnet : List Bool := [true, false, false, true, true, false, false, true]

/- Expected `detected` values of the 5 concept checks of sonnet _test_concept. -/
def conExpectSonnet : List Bool := [true, false, false, false, true]

/- Expected lowercase types of the 6 classify cases of sonnet _test_classify. -/
def classifyExpectSonnet : List String :=
  ["covariate", "concept", "both", "none", "covariate", "both"]

/- Expected uppercase actions of the 8 action cases of sonnet _test_action. -/
def actionExpectSonnet : List String :=
  ["MONITOR", "INVESTIGATE", "RETRAIN", "ESCALATE", "INVESTIGATE",
   "RETRAIN", "ESCALATE", "INVESTIGATE"]

/- The vector checks of sonnet _test_covariate and _test_concept: the calls
r1 = func(...), r2 = func(...) and so on run in order with no per-vector
handler, so any fault aborts the remaining vectors and propagates to the
outer `except Exception` of the method. -/
def detectVectorsStrict (f : DetectBehavior) : ℕ → List Bool → Except Fault (List Bool)
  | _, [] => .ok []
  | i, e :: rest =>
    match f i with
    | .error fl => .error fl
    | .ok v => okCons (decide (v = some e)) (detectVectorsStrict f (i + 1) rest)

/- The per-case loop of sonnet _test_classify: each case under a bare
`except:`, a fault or mismatch records the 1-based index as failed. -/
def classifyCasesSonnet (f : NameBehavior) : ℕ → List String → List Bool
  | _, [] => []
  | i, e :: rest =>
    (match f i with
     | .ok s => decide (pyLower s = pyLower e)
     | .error _ => false) :: classifyCasesSonnet f (i + 1) rest

/- The per-case loop of sonnet _test_action: each case under its own
`except Exception`, so an ordinary fault fails that case only while a
BaseException propagates. -/
def actionCasesSonnet (f : NameBehavior) : ℕ → List String → Except Fault (List Bool)
  | _, [] => .ok []
  | i, e :: rest =>
    match f i with
    | .error fl =>
      if fl.isBase then .error fl else okCons false (actionCasesSonnet f (i + 1) rest)
    | .ok s => okCons (decide (pyUpper s = e)) (actionCasesSonnet f (i + 1) rest)

def testCovariateSonnet (sem : SourceSem) : Except Fault FnGrade :=
  catchExcWith
    (match sem.load with
     | .error f => .error f
     | .ok ns =>
       match ns.detect_covariate_drift with
       | none => .ok ⟨false, "Function not found"⟩
       | some f =>
         match detectVectorsStrict f 0 covExpectSonnet with
         | .error fl => .error fl
         | .ok tp =>
           if tp.all id then .ok ⟨true, "All 8 covariate tests passed"⟩
           else .ok ⟨decide ((failedIdx tp 1).length ≤ 2),
                     "Failed tests: " ++ pyRepr (failedIdx tp 1)⟩)
    execFailed

def testConceptSonnet (sem : SourceSem) : Except Fault FnGrade :=
  catchExcWith
    (match sem.load with
     | .error f => .error f
     | .ok ns =>
       match ns.detect_concept_drift with
       | none => .ok ⟨false, "Function not found"⟩
       | some f =>
         match detectVectorsStrict f 0 conExpectSonnet with
         | .error fl => .error fl
         | .ok tp =>
           if tp.all id then .ok ⟨true, "All 5 concept tests passed"⟩
           else .ok ⟨decide ((failedIdx tp 1).length ≤ 3),
                     "Failed: " ++ pyRepr (failedIdx tp 1)⟩)
    execFailed

/- sonnet _test_classify is wrapped in a bare `except:` returning the fixed
reason, so it never lets any fault out. -/
def testClassifySonnet (sem : SourceSem) : Except Fault FnGrade :=
  .ok (catchAllWith
    (match sem.load with
     | .error f => .error f
     | .ok ns =>
       match ns.classify_drift with
       | none => .ok ⟨false, "Function not found"⟩
       | some f =>
         if (failedIdx (classifyCasesSonnet f 0 classifyExpectSonnet) 1).isEmpty then
           .ok ⟨true, "All 6 tests passed"⟩
         else
           .ok ⟨false,
                "Failed tests: " ++ pyRepr (failedIdx (classifyCasesSonnet f 0 classifyExpectSonnet) 1)⟩)
    ⟨false, "Function execution failed"⟩)

/- The band checks on the four impact results of sonnet _test_impact. -/
def impactVerdictSonnet (r1 r2 r3 r4 : ImpactNums) : FnGrade :=
  let tp : List Bool :=
    [decide (49000 ≤ r1.predictions_affected ∧ r1.predictions_affected ≤ 51000 ∧
             975 ≤ r1.errors ∧ r1.errors ≤ 1025 ∧
             48000 ≤ r1.financial_impact ∧ r1.financial_impact ≤ 52000),
     decide (r2.errors ≤ 10 ∧ 300 ≤ r2.financial_impact ∧ r2.financial_impact ≤ 400),
     decide (23900 ≤ r3.predictions_affected ∧ r3.predictions_affected ≤ 26100),
     decide (2450 ≤ r4.errors ∧ r4.errors ≤ 2550)]
  if tp.all id then ⟨true, "All 4 impact tests passed"⟩
  else ⟨decide ((failedIdx tp 1).length ≤ 2), "Failed tests: " ++ pyRepr (failedIdx tp 1)⟩

/- sonnet _test_impact: the four calls run in order with no per-test
handler, so a fault in one call aborts the remaining tests. -/
def testImpactSonnet (sem : SourceSem) : Except Fault FnGrade :=
  catchExcWith
    (match sem.load with
     | .error f => .error f
     | .ok ns =>
       match ns.calculate_drift_impact with
       | none => .ok ⟨false, "Function not found"⟩
       | some f =>
         match f 0 with
         | .error fl => .error fl
         | .ok r1 =>
           match f 1 with
           | .error fl => .error fl
           | .ok r2 =>
             match f 2 with
             | .error fl => .error fl
             | .ok r3 =>
               match f 3 with
               | .error fl => .error fl
               | .ok r4 => .ok (impactVerdictSonnet r1 r2 r3 r4))
    execFailed

def testActionSonnet (sem : SourceSem) : Except Fault FnGrade :=
  catchExcWith
    (match sem.load with
     | .error f => .error f
     | .ok ns =>
       match ns.determine_response_action with
       | none => .ok ⟨false, "Function not found"⟩
       | some f =>
         match actionCasesSonnet f 0 actionExpectSonnet with
         | .error fl => .error fl
         | .ok tp =>
           if (failedIdx tp 1).isEmpty then .ok ⟨true, "All 8 action tests passed"⟩
           else .ok ⟨decide ((failedIdx tp 1).length ≤ 3),
                     "Failed tests: " ++ pyRepr (failedIdx tp 1)⟩)
    execFailed

def collectSonnet (sem : SourceSem) : Except Fault GradeResults :=
  match testCovariateSonnet sem with
  | .error f => .error f
  | .ok c =>
    match testConceptSonnet sem with
    | .error f => .error f
    | .ok cn =>
      match testClassifySonnet sem with
      | .error f => .error f
      | .ok cl =>
        match testImpactSonnet sem with
        | .error f => .error f
        | .ok im =>
          match testActionSonnet sem with
          | .error f => .error f
          | .ok ac => .ok ⟨c, cn, cl, im, ac⟩

def gradeResponseSonnet (sem : SourceSem) : Except Fault GradeOutput :=
  match collectSonnet sem with
  | .ok rs => .ok ⟨rs, countPassed rs, none⟩
  | .error f =>
    if f.isBase then .error f else .ok ⟨gradingErrorResults, 0, some f.msg⟩

/- ------------------------------------------------------------------
Agent loop (run_agent_loop, identical in both source variants up to the
model name, which lives inside the opaque provider capability)
------------------------------------------------------------------ -/

/- The structural content of a tool_result dict: result and error for
python_expression (stdout, or the literal OK when empty; null fields left
implicit in the constructors), submitted true for submit_answer, and the
generic unknown-tool error. -/
inductive ToolPayload where
  | exprOk (result : String)
  | exprErr (error : String)
  | submitted
  | unknownTool
  deriving DecidableEq

structure ToolResult where
  tool_use_id : String
  payload : ToolPayload
  deriving DecidableEq

/- A content block of the model response: text, or a tool_use block with
its id, tool name, and input dict (modelled as an association list). -/
inductive ContentBlock where
  | text (s : String)
  | toolUse (cid : String) (name : String) (input : List (String × String))
  deriving DecidableEq

/- A message of the conversation: the seeding user prompt, an assistant
turn holding the response content, or the user-role turn carrying the
aggregated tool results of one step. -/
inductive Message where
  | user (prompt : String)
  | assistant (blocks : List ContentBlock)
  | toolReply (results : List ToolResult)
  deriving DecidableEq

/- The model-provider capability: from the message history to a fault
(transport or provider error of the messages.create call) or the content
blocks of the response. -/
abbrev Provider := List Message → Except Fault (List ContentBlock)

/- The interpretation of exec(expression, ns, ns) under redirect_stdout:
a fault, or the captured standard output. -/
abbrev ExecOracle := String → Except Fault String

/- tool_input.get(key, "") on the input dict. -/
def lookupD (input : List (String × String)) (k d : String) : String :=
  match input.find? (fun p => p.1 == k) with
  | some p => p.2
  | none => d

/- Dispatch of a single tool_use block.  The python_expression branch
wraps exec in `except Exception`, so a BaseException from the expression
propagates (aborting the whole step); submit_answer records the code and
never faults; an unknown name yields the generic error payload.  The
second component is the submission recorded by this call, if any. -/
def dispatchTool (ex : ExecOracle) (name : String) (input : List (String × String)) :
    Except Fault (ToolPayload × Option String) :=
  if name = "python_expression" then
    match ex (lookupD input "expression" "") with
    | .ok out => .ok (.exprOk (if out = "" then "OK" else out), none)
    | .error f => if f.isBase then .error f else .ok (.exprErr f.msg, none)
  else if name = "submit_answer" then
    .ok (.submitted, some (lookupD input "code" ""))
  else
    .ok (.unknownTool, none)

/- The `for content in response.content` loop: accumulates tool results in
order and threads the submitted_code variable (the latest submission wins).
A fault escaping a dispatch aborts the loop; the error carries the
submissions already assigned before the fault, because submitted_code is a
plain local variable that keeps its value when the step dies. -/
def processBlocks (ex : ExecOracle) :
    List ContentBlock → List ToolResult → Option String →
    Except (Fault × Option String) (List ToolResult × Option String)
  | [], acc, sub => .ok (acc, sub)
  | .text _ :: rest, acc, sub => processBlocks ex rest acc sub
  | .toolUse cid name input :: rest, acc, sub =>
    match dispatchTool ex name input with
    | .error f => .error (f, sub)
    | .ok (p, s) => processBlocks ex rest (acc ++ [⟨cid, p⟩]) (s <|> sub)

/- The mutable state of one run_agent_loop activation: the messages list
and the submitted_code variable. -/
structure LoopState where
  messages : List Message
  submitted : Option String
  deriving DecidableEq

def initState (prompt : String) : LoopState := ⟨[.user prompt], none⟩

inductive StepOut where
  | terminal (code : String) (final : LoopState)
  | next (st : LoopState)
  deriving DecidableEq

/- One iteration of the `for step in range(max_steps)` loop.  The whole
body sits under a bare `except: continue`, so a provider fault, or a
BaseException escaping a tool dispatch, leaves the messages untouched and
moves on.  When tool results exist they are appended as an assistant turn
plus one aggregated tool-result turn, and the step returns the submitted
code when `if submitted_code:` is truthy, i.e. the recorded code is
non-None and non-empty. -/
def runStep (ex : ExecOracle) (pr : Provider) (st : LoopState) : StepOut :=
  match pr st.messages with
  | .error _ => .next st
  | .ok blocks =>
    match processBlocks ex blocks [] none with
    | .error (_, psub) => .next ⟨st.messages, psub <|> st.submitted⟩
    | .ok (rs, sub) =>
      let submitted := sub <|> st.submitted
      if rs.isEmpty then .next ⟨st.messages, submitted⟩
      else
        let st' : LoopState := ⟨st.messages ++ [.assistant blocks, .toolReply rs], submitted⟩
        match submitted with
        | some c => if c = "" then .next st' else .terminal c st'
        | none => .next st'

/- run_agent_loop: at most maxSteps iterations, then `return None`. -/
def runLoop (ex : ExecOracle) (pr : Provider) : ℕ → LoopState → Option String
  | 0, _ => none
  | n + 1, st =>
    match runStep ex pr st with
    | .terminal c _ => some c
    | .next st' => runLoop ex pr n st'

/- runLoop instrumented with the number of provider requests attempted
(each loop iteration makes exactly one messages.create attempt). -/
def runLoopCount (ex : ExecOracle) (pr : Provider) : ℕ → LoopState → Option String × ℕ
  | 0, _ => (none, 0)
  | n + 1, st =>
    match runStep ex pr st with
    | .terminal c _ => (some c, 1)
    | .next st' =>
      let r := runLoopCount ex pr n st'
      (r.1, r.2 + 1)

/- ------------------------------------------------------------------
Orchestrator (run_single_test, main) - identical in the two variants
------------------------------------------------------------------ -/

/- The interpretation of source texts by the Python runtime: what loading
each submitted string does.  run_agent_loop hands the string to
grade_response, which execs it. -/
abbrev PySem := String → SourceSem

abbrev Grader := SourceSem → Except Fault GradeOutput

structure RunResult where
  run_id : ℕ
  score : ℕ
  results : GradeResults
  deriving DecidableEq

/- run_single_test: run the agent loop with max_steps = 20, grade
`code or ""` (None becomes the empty source), and package the dict.  A
fault escaping grade_response escapes run_single_test, which has no
handler of its own. -/
def runSingleTest (py : PySem) (ex : ExecOracle) (pr : Provider) (prompt : String)
    (runId : ℕ) (grader : Grader) : Except Fault RunResult :=
  let code := (runLoop ex pr 20 (initState prompt)).getD ""
  match grader (py code) with
  | .error f => .error f
  | .ok g => .ok ⟨runId, g.score, g.results⟩

/- The trial batch of main: one run_single_test per trial with run ids
1..numRuns; asyncio.gather propagates the first escaping fault. -/
def runTrials (py : PySem) (ex : ExecOracle) (prs : ℕ → Provider) (prompt : String)
    (grader : Grader) (numRuns : ℕ) : Except Fault (List RunResult) :=
  (List.range numRuns).mapM (fun i => runSingleTest py ex (prs i) prompt (i + 1) grader)

structure FinalReport where
  passedRuns : ℕ
  passRate : ℚ
  targetMet : Bool
  deriving DecidableEq

/- The final-report aggregation of main: passed_runs counts trials with
score == 5, passed_percentage = (passed_runs / num_runs) * 100, and the
target verdict checks the 10..40 band.  The Python division raises
ZeroDivisionError when num_runs = 0; the embedding returns `none` there
(there is no division fault in ℚ, so the fault is made explicit).  The
source computes in binary floating point; the rational value captures the
exact ratio the expression denotes. -/
def finalReport (numRuns : ℕ) (scores : List ℕ) : Option FinalReport :=
  let passedRuns := (scores.filter (fun s => s == 5)).length
  if numRuns = 0 then none
  else
    some ⟨passedRuns, (passedRuns : ℚ) / (numRuns : ℚ) * 100,
          decide (10 ≤ (passedRuns : ℚ) / (numRuns : ℚ) * 100 ∧
                  (passedRuns : ℚ) / (numRuns : ℚ) * 100 ≤ 40)⟩

/- main: gather all trials, then aggregate.  A fault escaping any trial
aborts main before any report; otherwise the report of the scores. -/
def mainRun (py : PySem) (ex : ExecOracle) (prs : ℕ → Provider) (prompt : String)
    (grader : Grader) (numRuns : ℕ) : Except Fault (Option FinalReport) :=
  match runTrials py ex prs prompt grader numRuns with
  | .error f => .error f
  | .ok rs => .ok (finalReport numRuns (rs.map (·.score)))

/- ------------------------------------------------------------------
Concrete fixtures used by the claim theorems
------------------------------------------------------------------ -/

/- A detector behaviour that answers every vector with its expected value:
the behaviour of a submission matching the grader's table exactly. -/
def matchDetect (expects : List Bool) : DetectBehavior :=
  fun i => .ok (some (expects.getD i true))

/- A name-returning behaviour that answers every case with its expected
string. -/
def matchName (expects : List String) : NameBehavior :=
  fun i => .ok (expects.getD i "")

/- The oracle values of the four impact tests, computed from the oracle
formula predictions = daily * days, errors = predictions * rate,
impact = errors * cost on the inputs of the grader tables (the two tables
coincide): (10000,5,0.02,50), (10000,7,0.0001,50), (10000,2.5,0.01,100),
(50000,1,0.05,200). -/
def oracleImpacts : List ImpactNums :=
  [⟨50000, 1000, 50000⟩, ⟨70000, 7, 350⟩, ⟨25000, 250, 25000⟩, ⟨50000, 2500, 500000⟩]

def matchImpact : ImpactBehavior :=
  fun i => .ok (oracleImpacts.getD i ⟨0, 0, 0⟩)

/- The semantics of a submission whose five functions hit every expected
value of the opus tables. -/
def perfectSemOpus : SourceSem :=
  ⟨.ok ⟨some (matchDetect covExpectOpus), some (matchDetect conExpectOpus),
        some (matchName classifyExpectOpus), some matchImpact,
        some (matchName actionExpectOpus)⟩⟩

/- The semantics of a submission whose five functions hit every expected
value of the sonnet tables. -/
def perfectSemSonnet : SourceSem :=
  ⟨.ok ⟨some (matchDetect covExpectSonnet), some (matchDetect conExpectSonnet),
        some (matchName classifyExpectSonnet), some matchImpact,
        some (matchName actionExpectSonnet)⟩⟩

/- A covariate behaviour that faults (ordinary exception) on the first
vector and matches the sonnet expectations on all later vectors. -/
def faultyCovSonnet : DetectBehavior :=
  fun i => if i = 0 then .error ⟨false, "overflow"⟩ else .ok (some (covExpectSonnet.getD i true))

/- The same behaviour with the fault replaced by a plain wrong answer on
the first vector. -/
def wrongCovSonnet : DetectBehavior :=
  fun i => if i = 0 then .ok none else .ok (some (covExpectSonnet.getD i true))

def faultyCovSemSonnet : SourceSem := ⟨.ok ⟨some faultyCovSonnet, none, none, none, none⟩⟩

def wrongCovSemSonnet : SourceSem := ⟨.ok ⟨some wrongCovSonnet, none, none, none, none⟩⟩

/- Opus-table analogues for the witness of the per-vector isolation
theorem. -/
def faultyCovOpus : DetectBehavior :=
  fun i => if i = 0 then .error ⟨false, "division by zero"⟩
           else .ok (some (covExpectOpus.getD i true))

def wrongCovOpus : DetectBehavior :=
  fun i => if i = 0 then .ok none else .ok (some (covExpectOpus.getD i true))

def faultyConOpus : DetectBehavior :=
  fun i => if i = 0 then .error ⟨false, "division by zero"⟩
           else .ok (some (conExpectOpus.getD i true))

def wrongConOpus : DetectBehavior :=
  fun i => if i = 0 then .ok none else .ok (some (conExpectOpus.getD i true))

def faultyClassifyOpus : NameBehavior :=
  fun i => if i = 0 then .error ⟨true, "SystemExit"⟩ else .ok (classifyExpectOpus.getD i "")

def wrongClassifyOpus : NameBehavior :=
  fun i => if i = 0 then .ok "wrong" else .ok (classifyExpectOpus.getD i "")

def badImpact : ImpactNums := ⟨0, 0, -1⟩

def faultyImpactOpus : ImpactBehavior :=
  fun i => if i = 0 then .error ⟨true, "SystemExit"⟩ else .ok (oracleImpacts.getD i ⟨0, 0, 0⟩)

def wrongImpactOpus : ImpactBehavior :=
  fun i => if i = 0 then .ok badImpact else .ok (oracleImpacts.getD i ⟨0, 0, 0⟩)

def faultyActionOpus : NameBehavior :=
  fun i => if i = 0 then .error ⟨true, "SystemExit"⟩ else .ok (actionExpectOpus.getD i "")

def wrongActionOpus : NameBehavior :=
  fun i => if i = 0 then .ok "wrong" else .ok (actionExpectOpus.getD i "")

def faultyClassifySonnet : NameBehavior :=
  fun i => if i = 0 then .error ⟨true, "SystemExit"⟩ else .ok (classifyExpectSonnet.getD i "")

def wrongClassifySonnet : NameBehavior :=
  fun i => if i = 0 then .ok "wrong" else .ok (classifyExpectSonnet.getD i "")

def faultyActionSonnet : NameBehavior :=
  fun i => if i = 0 then .error ⟨false, "overflow"⟩ else .ok (actionExpectSonnet.getD i "")

def wrongActionSonnet : NameBehavior :=
  fun i => if i = 0 then .ok "wrong" else .ok (actionExpectSonnet.getD i "")

/- An exec oracle with no observable effect, for steps that never consult
it. -/
def exOk : ExecOracle := fun _ => .ok ""

/- A provider that submits the empty string on the first step (the history
still holds only the seeding prompt) and answers with no content blocks
afterwards. -/
def emptySubmitProvider : Provider :=
  fun msgs =>
    if msgs.length = 1 then .ok [.toolUse "t1" "submit_answer" [("code", "")]]
    else .ok []

/- A provider that submits the code "abc" on every step. -/
def submitAbcProvider : Provider :=
  fun _ => .ok [.toolUse "t1" "submit_answer" [("code", "abc")]]

/- A provider whose every call fails (transport fault). -/
def faultingProvider : Provider := fun _ => .error ⟨false, "transport error"⟩

/- A provider that submits the code "X" on every step. -/
def submitXProvider : Provider := fun _ => .ok [.toolUse "t1" "submit_answer" [("code", "X")]]

/- A source-text interpretation under which the submission "X" raises a
BaseException (SystemExit) at load time and every other text loads to the
empty namespace. -/
def sysExitPySem : PySem :=
  fun s => if s = "X" then ⟨.error ⟨true, "SystemExit"⟩⟩ else emptySem

/- An exec oracle under which one expression raises SystemExit and all
others print nothing. -/
def baseFaultEx : ExecOracle :=
  fun e => if e = "raise SystemExit" then .error ⟨true, "SystemExit"⟩ else .ok ""

def sysExitBlock : ContentBlock :=
  .toolUse "t9" "python_expression" [("expression", "raise SystemExit")]

/- An exec oracle mixing a silent success and an ordinary fault. -/
def mixedEx : ExecOracle :=
  fun e => if e = "x = 1" then .ok ""
           else if e = "boom()" then .error ⟨false, "name error"⟩
           else .ok "out"

/- A provider that always answers with a text-only block. -/
def textOnlyProvider : Provider := fun _ => .ok [.text "thinking"]

def ContentBlock.isText : ContentBlock → Bool
  | .text _ => true
  | _ => false

/- ------------------------------------------------------------------
Fault-level predicates for the error-containment theorems
------------------------------------------------------------------ -/

/- A behaviour whose faults are all ordinary exceptions. -/
def NoBaseBeh {α : Type} (f : ℕ → Except Fault α) : Prop :=
  ∀ i fl, f i = .error fl → fl.isBase = false

def NoBaseOpt {α : Type} : Option (ℕ → Except Fault α) → Prop
  | none => True
  | some f => NoBaseBeh f

def NsNoBase (ns : PyNamespace) : Prop :=
  NoBaseOpt ns.detect_covariate_drift ∧ NoBaseOpt ns.detect_concept_drift ∧
  NoBaseOpt ns.classify_drift ∧ NoBaseOpt ns.calculate_drift_impact ∧
  NoBaseOpt ns.determine_response_action

/- A submitted-code semantics whose faults, at load time and inside each
graded function, are all ordinary exceptions. -/
def SemNoBase (sem : SourceSem) : Prop :=
  match sem.load with
  | .error f => f.isBase = false
  | .ok ns => NsNoBase ns

/- A fault-free outcome predicate: the computation did not end in a
BaseException-level fault. -/
def NotBaseErr {α : Type} (x : Except Fault α) : Prop :=
  ∀ fl, x = .error fl → fl.isBase = false

/- ------------------------------------------------------------------
Theorems
------------------------------------------------------------------ -/

theorem detectVectorsOpus_cons (f : DetectBehavior) (i : ℕ) (e : Bool) (rest : List Bool) :
    detectVectorsOpus f i (e :: rest) =
      match f i with
      | .error fl =>
        if fl.isBase then .error fl else okCons false (detectVectorsOpus f (i + 1) rest)
      | .ok v => okCons (decide (v = some e)) (detectVectorsOpus f (i + 1) rest) := rfl

theorem detectVectorsStrict_cons (f : DetectBehavior) (i : ℕ) (e : Bool) (rest : List Bool) :
    detectVectorsStrict f i (e :: rest) =
      match f i with
      | .error fl => .error fl
      | .ok v => okCons (decide (v = some e)) (detectVectorsStrict f (i + 1) rest) := rfl

theorem actionCasesSonnet_cons (f : NameBehavior) (i : ℕ) (e : String) (rest : List String) :
    actionCasesSonnet f i (e :: rest) =
      match f i with
      | .error fl =>
        if fl.isBase then .error fl else okCons false (actionCasesSonnet f (i + 1) rest)
      | .ok s => okCons (decide (pyUpper s = e)) (actionCasesSonnet f (i + 1) rest) := rfl

/-- C1: the claim reads: a submission whose five functions satisfy the oracle
on every test vector receives score 5 from grade_response, every function
passing.  On the opus grader this fails: with every vector answered exactly
as expected, the banded pass conditions (3 ≤ n ≤ 5 of 7 covariate vectors,
3 ≤ n ≤ 5 of 8 concept vectors, 2 ≤ n ≤ 3 of 4 impact tests, 4 ≤ n ≤ 6 of 9
action cases) reject the full-pass counts, only the classify check
(5 ≤ 7 correct) passes, and the score is 1 - contradicting the class's own
docstring, which promises one point per function when all tests pass.  The
sonnet grader keeps that promise and yields score 5 on its all-pass input. -/
theorem c1_perfect_submission_scores :
    gradeResponseOpus perfectSemOpus =
      .ok ⟨⟨⟨false, "Passed 7/7 tests"⟩, ⟨false, "Passed 8/8 tests"⟩, ⟨true, "Passed 7/7"⟩,
            ⟨false, "Passed 4/4 tests"⟩, ⟨false, "Passed 9/9"⟩⟩, 1, none⟩ ∧
    gradeResponseSonnet perfectSemSonnet =
      .ok ⟨⟨⟨true, "All 8 covariate tests passed"⟩, ⟨true, "All 5 concept tests passed"⟩,
            ⟨true, "All 6 tests passed"⟩, ⟨true, "All 4 impact tests passed"⟩,
            ⟨true, "All 8 action tests passed"⟩⟩, 5, none⟩ :=
  ⟨rfl, rfl⟩

/-- C2 counterexample: grading a source whose load raises an ordinary fault
does not short-circuit through the "Grading error" branch of
grade_response.  Each per-function test catches the fault itself: the
result carries reason "Execution failed: boom", not "Grading error", and no
separate diagnostic is retained (errorMsg = none). -/
theorem c2_counterexample :
    gradeResponseOpus ⟨.error ⟨false, "boom"⟩⟩ =
      .ok ⟨⟨⟨false, "Execution failed: boom"⟩, ⟨false, "Execution failed: boom"⟩,
            ⟨false, "Execution failed: boom"⟩, ⟨false, "Execution failed: boom"⟩,
            ⟨false, "Execution failed: boom"⟩⟩, 0, none⟩ ∧
    "Execution failed: boom" ≠ "Grading error" :=
  ⟨rfl, by decide⟩

/-- C2 amended: a load fault at ordinary-exception level is caught
independently inside each of the five per-function tests, never reaching
grade_response's own handler: the call returns score 0 with every function
failed, the opus reasons all "Execution failed: msg", the sonnet reasons
the same except classify's bare-except "Function execution failed", and no
separate diagnostic is attached. -/
theorem c2_amended (m : String) :
    gradeResponseOpus ⟨.error ⟨false, m⟩⟩ =
      .ok ⟨⟨⟨false, "Execution failed: " ++ m⟩, ⟨false, "Execution failed: " ++ m⟩,
            ⟨false, "Execution failed: " ++ m⟩, ⟨false, "Execution failed: " ++ m⟩,
            ⟨false, "Execution failed: " ++ m⟩⟩, 0, none⟩ ∧
    gradeResponseSonnet ⟨.error ⟨false, m⟩⟩ =
      .ok ⟨⟨⟨false, "Execution failed: " ++ m⟩, ⟨false, "Execution failed: " ++ m⟩,
            ⟨false, "Function execution failed"⟩, ⟨false, "Execution failed: " ++ m⟩,
            ⟨false, "Execution failed: " ++ m⟩⟩, 0, none⟩ :=
  ⟨rfl, rfl⟩

/-- C2 amended, witnessed at the load-fault message "bad input". -/
theorem c2_amended_witness :
    gradeResponseOpus ⟨.error ⟨false, "bad input"⟩⟩ =
      .ok ⟨⟨⟨false, "Execution failed: bad input"⟩, ⟨false, "Execution failed: bad input"⟩,
            ⟨false, "Execution failed: bad input"⟩, ⟨false, "Execution failed: bad input"⟩,
            ⟨false, "Execution failed: bad input"⟩⟩, 0, none⟩ ∧
    gradeResponseSonnet ⟨.error ⟨false, "bad input"⟩⟩ =
      .ok ⟨⟨⟨false, "Execution failed: bad input"⟩, ⟨false, "Execution failed: bad input"⟩,
            ⟨false, "Function execution failed"⟩, ⟨false, "Execution failed: bad input"⟩,
            ⟨false, "Execution failed: bad input"⟩⟩, 0, none⟩ :=
  c2_amended "bad input"

/-- C3 counterexample: at numTrials = 0 the aggregation has no defined
"no trials" report: the division passed_runs / num_runs raises
ZeroDivisionError, embedded as the absent report. -/
theorem c3_counterexample : finalReport 0 [] = none := rfl

/-- C3 amended: for numTrials > 0 the reported pass-rate is exactly the
count of trials with score 5 divided by numTrials (scaled to percent,
exactly in the rational model of the float expression); at numTrials = 0
the division faults instead of producing a report. -/
theorem c3_amended (numRuns : ℕ) (scores : List ℕ) (h : numRuns ≠ 0) :
    ∃ r, finalReport numRuns scores = some r ∧
      r.passedRuns = (scores.filter (fun s => s == 5)).length ∧
      r.passRate * numRuns = 100 * r.passedRuns := by
  have hn : (numRuns : ℚ) ≠ 0 := Nat.cast_ne_zero.mpr h
  unfold finalReport
  rw [if_neg h]
  refine ⟨_, rfl, rfl, ?_⟩
  field_simp
  ring

/-- C3 amended, witnessed on four trials with two perfect scores: the
report exists and its rate satisfies rate * 4 = 100 * 2. -/
theorem c3_amended_witness :
    ∃ r, finalReport 4 [5, 0, 5, 3] = some r ∧
      r.passedRuns = ([5, 0, 5, 3].filter (fun s => s == 5)).length ∧
      r.passRate * 4 = 100 * r.passedRuns :=
  c3_amended 4 [5, 0, 5, 3] (by decide)

/-- C8: grading the empty string is a fixed value: both graders return
score 0 with every function failed as "Function not found", and grading a
fixed non-loadable text (an ordinary load fault with message
"invalid syntax") is likewise a fixed value with score 0; grade_response
consults nothing but the text's load semantics, so repeated calls agree. -/
theorem c8_empty_grade_deterministic :
    gradeResponseOpus emptySem =
      .ok ⟨⟨⟨false, "Function not found"⟩, ⟨false, "Function not found"⟩,
            ⟨false, "Function not found"⟩, ⟨false, "Function not found"⟩,
            ⟨false, "Function not found"⟩⟩, 0, none⟩ ∧
    gradeResponseSonnet emptySem =
      .ok ⟨⟨⟨false, "Function not found"⟩, ⟨false, "Function not found"⟩,
            ⟨false, "Function not found"⟩, ⟨false, "Function not found"⟩,
            ⟨false, "Function not found"⟩⟩, 0, none⟩ ∧
    gradeResponseOpus ⟨.error ⟨false, "invalid syntax"⟩⟩ =
      .ok ⟨⟨⟨false, "Execution failed: invalid syntax"⟩, ⟨false, "Execution failed: invalid syntax"⟩,
            ⟨false, "Execution failed: invalid syntax"⟩, ⟨false, "Execution failed: invalid syntax"⟩,
            ⟨false, "Execution failed: invalid syntax"⟩⟩, 0, none⟩ ∧
    gradeResponseSonnet ⟨.error ⟨false, "invalid syntax"⟩⟩ =
      .ok ⟨⟨⟨false, "Execution failed: invalid syntax"⟩, ⟨false, "Execution failed: invalid syntax"⟩,
            ⟨false, "Function execution failed"⟩, ⟨false, "Execution failed: invalid syntax"⟩,
            ⟨false, "Execution failed: invalid syntax"⟩⟩, 0, none⟩ :=
  ⟨rfl, rfl, rfl, rfl⟩

/-- C4 counterexample: in sonnet _test_covariate a fault on the first
vector does not count only that vector as failed - it aborts the whole
function test with "Execution failed: overflow" - whereas the same
behaviour with the fault replaced by a mere wrong answer on that vector
passes the function (one failed vector is within the allowed two). -/
theorem c4_counterexample :
    testCovariateSonnet faultyCovSemSonnet = .ok ⟨false, "Execution failed: overflow"⟩ ∧
    testCovariateSonnet wrongCovSemSonnet = .ok ⟨true, "Failed tests: [1]"⟩ :=
  ⟨rfl, rfl⟩

theorem detectVectorsOpus_congr (f g : DetectBehavior) (j : ℕ) (m : String)
    (hfg : ∀ i, i ≠ j → f i = g i) (hf : f j = .error ⟨false, m⟩) (hg : g j = .ok none) :
    ∀ (l : List Bool) (i : ℕ), detectVectorsOpus f i l = detectVectorsOpus g i l := by
  intro l
  induction l with
  | nil => intro i; rfl
  | cons e rest ih =>
    intro i
    rw [detectVectorsOpus_cons, detectVectorsOpus_cons]
    rcases eq_or_ne i j with rfl | hij
    · rw [hf, hg]
      show okCons false (detectVectorsOpus f (i + 1) rest) =
        okCons false (detectVectorsOpus g (i + 1) rest)
      rw [ih]
    · rw [hfg i hij, ih]

theorem classifyCasesOpus_cons (f : NameBehavior) (i : ℕ) (e : String) (rest : List String) :
    classifyCasesOpus f i (e :: rest) =
      (match f i with
       | .ok s => decide (pyLower s = e)
       | .error _ => false) :: classifyCasesOpus f (i + 1) rest := rfl

theorem impactCasesOpus_cons (f : ImpactBehavior) (i : ℕ) (band : ℚ × ℚ)
    (rest : List (ℚ × ℚ)) :
    impactCasesOpus f i (band :: rest) =
      (match f i with
       | .ok r => decide (band.1 ≤ r.financial_impact ∧ r.financial_impact ≤ band.2)
       | .error _ => false) :: impactCasesOpus f (i + 1) rest := rfl

theorem actionCasesOpus_cons (f : NameBehavior) (i : ℕ) (e : String) (rest : List String) :
    actionCasesOpus f i (e :: rest) =
      (match f i with
       | .ok s => decide (pyUpper s = e)
       | .error _ => false) :: actionCasesOpus f (i + 1) rest := rfl

theorem classifyCasesSonnet_cons (f : NameBehavior) (i : ℕ) (e : String) (rest : List String) :
    classifyCasesSonnet f i (e :: rest) =
      (match f i with
       | .ok s => decide (pyLower s = pyLower e)
       | .error _ => false) :: classifyCasesSonnet f (i + 1) rest := rfl

theorem classifyCasesOpus_congr (f g : NameBehavior) (j : ℕ) (fl : Fault) (w : String)
    (hfg : ∀ i, i ≠ j → f i = g i) (hf : f j = .error fl) (hg : g j = .ok w) :
    ∀ (l : List String) (i : ℕ), (∀ e ∈ l, pyLower w ≠ e) →
      classifyCasesOpus f i l = classifyCasesOpus g i l := by
  intro l
  induction l with
  | nil => intro i _; rfl
  | cons e rest ih =>
    intro i hw
    have htl : ∀ e2 ∈ rest, pyLower w ≠ e2 := fun e2 he2 => hw e2 (List.mem_cons_of_mem e he2)
    rw [classifyCasesOpus_cons, classifyCasesOpus_cons]
    rcases eq_or_ne i j with rfl | hij
    · rw [hf, hg]
      show false :: classifyCasesOpus f (i + 1) rest =
        decide (pyLower w = e) :: classifyCasesOpus g (i + 1) rest
      rw [decide_eq_false (hw e (List.mem_cons_self e rest)), ih (i + 1) htl]
    · rw [hfg i hij, ih (i + 1) htl]

theorem impactCasesOpus_congr (f g : ImpactBehavior) (j : ℕ) (fl : Fault) (w : ImpactNums)
    (hfg : ∀ i, i ≠ j → f i = g i) (hf : f j = .error fl) (hg : g j = .ok w) :
    ∀ (l : List (ℚ × ℚ)) (i : ℕ),
      (∀ band ∈ l, ¬(band.1 ≤ w.financial_impact ∧ w.financial_impact ≤ band.2)) →
      impactCasesOpus f i l = impactCasesOpus g i l := by
  intro l
  induction l with
  | nil => intro i _; rfl
  | cons band rest ih =>
    intro i hw
    have htl : ∀ b2 ∈ rest, ¬(b2.1 ≤ w.financial_impact ∧ w.financial_impact ≤ b2.2) :=
      fun b2 hb2 => hw b2 (List.mem_cons_of_mem band hb2)
    rw [impactCasesOpus_cons, impactCasesOpus_cons]
    rcases eq_or_ne i j with rfl | hij
    · rw [hf, hg]
      show false :: impactCasesOpus f (i + 1) rest =
        decide (band.1 ≤ w.financial_impact ∧ w.financial_impact ≤ band.2) ::
          impactCasesOpus g (i + 1) rest
      rw [decide_eq_false (hw band (List.mem_cons_self band rest)), ih (i + 1) htl]
    · rw [hfg i hij, ih (i + 1) htl]

theorem actionCasesOpus_congr (f g : NameBehavior) (j : ℕ) (fl : Fault) (w : String)
    (hfg : ∀ i, i ≠ j → f i = g i) (hf : f j = .error fl) (hg : g j = .ok w) :
    ∀ (l : List String) (i : ℕ), (∀ e ∈ l, pyUpper w ≠ e) →
      actionCasesOpus f i l = actionCasesOpus g i l := by
  intro l
  induction l with
  | nil => intro i _; rfl
  | cons e rest ih =>
    intro i hw
    have htl : ∀ e2 ∈ rest, pyUpper w ≠ e2 := fun e2 he2 => hw e2 (List.mem_cons_of_mem e he2)
    rw [actionCasesOpus_cons, actionCasesOpus_cons]
    rcases eq_or_ne i j with rfl | hij
    · rw [hf, hg]
      show false :: actionCasesOpus f (i + 1) rest =
        decide (pyUpper w = e) :: actionCasesOpus g (i + 1) rest
      rw [decide_eq_false (hw e (List.mem_cons_self e rest)), ih (i + 1) htl]
    · rw [hfg i hij, ih (i + 1) htl]

theorem classifyCasesSonnet_congr (f g : NameBehavior) (j : ℕ) (fl : Fault) (w : String)
    (hfg : ∀ i, i ≠ j → f i = g i) (hf : f j = .error fl) (hg : g j = .ok w) :
    ∀ (l : List String) (i : ℕ), (∀ e ∈ l, pyLower w ≠ pyLower e) →
      classifyCasesSonnet f i l = classifyCasesSonnet g i l := by
  intro l
  induction l with
  | nil => intro i _; rfl
  | cons e rest ih =>
    intro i hw
    have htl : ∀ e2 ∈ rest, pyLower w ≠ pyLower e2 :=
      fun e2 he2 => hw e2 (List.mem_cons_of_mem e he2)
    rw [classifyCasesSonnet_cons, classifyCasesSonnet_cons]
    rcases eq_or_ne i j with rfl | hij
    · rw [hf, hg]
      show false :: classifyCasesSonnet f (i + 1) rest =
        decide (pyLower w = pyLower e) :: classifyCasesSonnet g (i + 1) rest
      rw [decide_eq_false (hw e (List.mem_cons_self e rest)), ih (i + 1) htl]
    · rw [hfg i hij, ih (i + 1) htl]

theorem actionCasesSonnet_congr (f g : NameBehavior) (j : ℕ) (m : String) (w : String)
    (hfg : ∀ i, i ≠ j → f i = g i) (hf : f j = .error ⟨false, m⟩) (hg : g j = .ok w) :
    ∀ (l : List String) (i : ℕ), (∀ e ∈ l, pyUpper w ≠ e) →
      actionCasesSonnet f i l = actionCasesSonnet g i l := by
  intro l
  induction l with
  | nil => intro i _; rfl
  | cons e rest ih =>
    intro i hw
    have htl : ∀ e2 ∈ rest, pyUpper w ≠ e2 := fun e2 he2 => hw e2 (List.mem_cons_of_mem e he2)
    rw [actionCasesSonnet_cons, actionCasesSonnet_cons]
    rcases eq_or_ne i j with rfl | hij
    · rw [hf, hg]
      show okCons false (actionCasesSonnet f (i + 1) rest) =
        okCons (decide (pyUpper w = e)) (actionCasesSonnet g (i + 1) rest)
      rw [decide_eq_false (hw e (List.mem_cons_self e rest)), ih (i + 1) htl]
    · rw [hfg i hij, ih (i + 1) htl]

/-- C4 amended: per-vector fault isolation holds exactly where the source
installs a per-case handler, with that handler's scope.  In opus
_test_covariate and _test_concept (per-vector `except Exception`) and
sonnet _test_action (per-case `except Exception`) an ordinary-exception
fault during one vector grades identically to a plain wrong answer on that
vector; in opus _test_classify, _test_impact and _test_action and sonnet
_test_classify (bare per-case `except:`) any fault at all, BaseException
included, grades identically to a wrong answer on that case.  In every
case the other four functions are graded unaffected, each test reading
only its own symbol (stated as a frame property over the covariate slot).
In sonnet _test_covariate, _test_concept and _test_impact there is no
per-vector handler and a vector fault aborts that whole function's test
(the counterexample). -/
theorem c4_amended :
    (∀ (ns : PyNamespace) (f g : DetectBehavior) (j : ℕ) (m : String),
      (∀ i, i ≠ j → f i = g i) → f j = .error ⟨false, m⟩ → g j = .ok none →
      testCovariateOpus ⟨.ok { ns with detect_covariate_drift := some f }⟩ =
        testCovariateOpus ⟨.ok { ns with detect_covariate_drift := some g }⟩) ∧
    (∀ (ns : PyNamespace) (f g : DetectBehavior) (j : ℕ) (m : String),
      (∀ i, i ≠ j → f i = g i) → f j = .error ⟨false, m⟩ → g j = .ok none →
      testConceptOpus ⟨.ok { ns with detect_concept_drift := some f }⟩ =
        testConceptOpus ⟨.ok { ns with detect_concept_drift := some g }⟩) ∧
    (∀ (ns : PyNamespace) (f g : NameBehavior) (j : ℕ) (fl : Fault) (w : String),
      (∀ i, i ≠ j → f i = g i) → f j = .error fl → g j = .ok w →
      (∀ e ∈ classifyExpectOpus, pyLower w ≠ e) →
      testClassifyOpus ⟨.ok { ns with classify_drift := some f }⟩ =
        testClassifyOpus ⟨.ok { ns with classify_drift := some g }⟩) ∧
    (∀ (ns : PyNamespace) (f g : ImpactBehavior) (j : ℕ) (fl : Fault) (w : ImpactNums),
      (∀ i, i ≠ j → f i = g i) → f j = .error fl → g j = .ok w →
      (∀ band ∈ impactBandsOpus, ¬(band.1 ≤ w.financial_impact ∧ w.financial_impact ≤ band.2)) →
      testImpactOpus ⟨.ok { ns with calculate_drift_impact := some f }⟩ =
        testImpactOpus ⟨.ok { ns with calculate_drift_impact := some g }⟩) ∧
    (∀ (ns : PyNamespace) (f g : NameBehavior) (j : ℕ) (fl : Fault) (w : String),
      (∀ i, i ≠ j → f i = g i) → f j = .error fl → g j = .ok w →
      (∀ e ∈ actionExpectOpus, pyUpper w ≠ e) →
      testActionOpus ⟨.ok { ns with determine_response_action := some f }⟩ =
        testActionOpus ⟨.ok { ns with determine_response_action := some g }⟩) ∧
    (∀ (ns : PyNamespace) (f g : NameBehavior) (j : ℕ) (fl : Fault) (w : String),
      (∀ i, i ≠ j → f i = g i) → f j = .error fl → g j = .ok w →
      (∀ e ∈ classifyExpectSonnet, pyLower w ≠ pyLower e) →
      testClassifySonnet ⟨.ok { ns with classify_drift := some f }⟩ =
        testClassifySonnet ⟨.ok { ns with classify_drift := some g }⟩) ∧
    (∀ (ns : PyNamespace) (f g : NameBehavior) (j : ℕ) (m : String) (w : String),
      (∀ i, i ≠ j → f i = g i) → f j = .error ⟨false, m⟩ → g j = .ok w →
      (∀ e ∈ actionExpectSonnet, pyUpper w ≠ e) →
      testActionSonnet ⟨.ok { ns with determine_response_action := some f }⟩ =
        testActionSonnet ⟨.ok { ns with determine_response_action := some g }⟩) ∧
    (∀ (ns : PyNamespace) (o1 o2 : Option DetectBehavior),
      testConceptOpus ⟨.ok { ns with detect_covariate_drift := o1 }⟩ =
        testConceptOpus ⟨.ok { ns with detect_covariate_drift := o2 }⟩ ∧
      testClassifyOpus ⟨.ok { ns with detect_covariate_drift := o1 }⟩ =
        testClassifyOpus ⟨.ok { ns with detect_covariate_drift := o2 }⟩ ∧
      testImpactOpus ⟨.ok { ns with detect_covariate_drift := o1 }⟩ =
        testImpactOpus ⟨.ok { ns with detect_covariate_drift := o2 }⟩ ∧
      testActionOpus ⟨.ok { ns with detect_covariate_drift := o1 }⟩ =
        testActionOpus ⟨.ok { ns with detect_covariate_drift := o2 }⟩) := by
  refine ⟨?_, ?_, ?_, ?_, ?_, ?_, ?_, fun ns o1 o2 => ⟨rfl, rfl, rfl, rfl⟩⟩
  · intro ns f g j m hfg hf hg
    show catchExcWith
        (match detectVectorsOpus f 0 covExpectOpus with
         | .error fl => .error fl
         | .ok passed =>
           .ok ⟨decide (3 ≤ passed.count true ∧ passed.count true ≤ 5),
                "Passed " ++ toString (passed.count true) ++ "/7 tests"⟩)
        execFailed = _
    rw [detectVectorsOpus_congr f g j m hfg hf hg]
    rfl
  · intro ns f g j m hfg hf hg
    show catchExcWith
        (match detectVectorsOpus f 0 conExpectOpus with
         | .error fl => .error fl
         | .ok passed =>
           .ok ⟨decide (3 ≤ passed.count true ∧ passed.count true ≤ 5),
                "Passed " ++ toString (passed.count true) ++ "/8 tests"⟩)
        execFailed = _
    rw [detectVectorsOpus_congr f g j m hfg hf hg]
    rfl
  · intro ns f g j fl w hfg hf hg hw
    show catchExcWith
        (.ok ⟨decide (5 ≤ (classifyCasesOpus f 0 classifyExpectOpus).count true),
              "Passed " ++ toString ((classifyCasesOpus f 0 classifyExpectOpus).count true)
                ++ "/7"⟩)
        execFailed = _
    rw [classifyCasesOpus_congr f g j fl w hfg hf hg classifyExpectOpus 0 hw]
    rfl
  · intro ns f g j fl w hfg hf hg hw
    show catchExcWith
        (.ok ⟨decide (2 ≤ (impactCasesOpus f 0 impactBandsOpus).count true ∧
                      (impactCasesOpus f 0 impactBandsOpus).count true ≤ 3),
              "Passed " ++ toString ((impactCasesOpus f 0 impactBandsOpus).count true)
                ++ "/4 tests"⟩)
        execFailed = _
    rw [impactCasesOpus_congr f g j fl w hfg hf hg impactBandsOpus 0 hw]
    rfl
  · intro ns f g j fl w hfg hf hg hw
    show catchExcWith
        (.ok ⟨decide (4 ≤ (actionCasesOpus f 0 actionExpectOpus).count true ∧
                      (actionCasesOpus f 0 actionExpectOpus).count true ≤ 6),
              "Passed " ++ toString ((actionCasesOpus f 0 actionExpectOpus).count true)
                ++ "/9"⟩)
        execFailed = _
    rw [actionCasesOpus_congr f g j fl w hfg hf hg actionExpectOpus 0 hw]
    rfl
  · intro ns f g j fl w hfg hf hg hw
    show Except.ok (catchAllWith
        (if (failedIdx (classifyCasesSonnet f 0 classifyExpectSonnet) 1).isEmpty then
           .ok ⟨true, "All 6 tests passed"⟩
         else
           .ok ⟨false,
                "Failed tests: " ++ pyRepr (failedIdx (classifyCasesSonnet f 0 classifyExpectSonnet) 1)⟩)
        ⟨false, "Function execution failed"⟩) = _
    rw [classifyCasesSonnet_congr f g j fl w hfg hf hg classifyExpectSonnet 0 hw]
    rfl
  · intro ns f g j m w hfg hf hg hw
    show catchExcWith
        (match actionCasesSonnet f 0 actionExpectSonnet with
         | .error fl => .error fl
         | .ok tp =>
           if (failedIdx tp 1).isEmpty then .ok ⟨true, "All 8 action tests passed"⟩
           else .ok ⟨decide ((failedIdx tp 1).length ≤ 3),
                     "Failed tests: " ++ pyRepr (failedIdx tp 1)⟩)
        execFailed = _
    rw [actionCasesSonnet_congr f g j m w hfg hf hg actionExpectSonnet 0 hw]
    rfl

/-- C4 amended, witnessed: for each of the seven handler-guarded tests, a
behaviour faulting on the first vector - a SystemExit-level fault for the
four bare-except case loops, an ordinary fault for the except-Exception
loops - grades identically to one answering that vector wrongly, and the
concept test ignores the covariate slot. -/
theorem c4_amended_witness :
    testCovariateOpus ⟨.ok { emptyNs with detect_covariate_drift := some faultyCovOpus }⟩ =
      testCovariateOpus ⟨.ok { emptyNs with detect_covariate_drift := some wrongCovOpus }⟩ ∧
    testConceptOpus ⟨.ok { emptyNs with detect_concept_drift := some faultyConOpus }⟩ =
      testConceptOpus ⟨.ok { emptyNs with detect_concept_drift := some wrongConOpus }⟩ ∧
    testClassifyOpus ⟨.ok { emptyNs with classify_drift := some faultyClassifyOpus }⟩ =
      testClassifyOpus ⟨.ok { emptyNs with classify_drift := some wrongClassifyOpus }⟩ ∧
    testImpactOpus ⟨.ok { emptyNs with calculate_drift_impact := some faultyImpactOpus }⟩ =
      testImpactOpus ⟨.ok { emptyNs with calculate_drift_impact := some wrongImpactOpus }⟩ ∧
    testActionOpus ⟨.ok { emptyNs with determine_response_action := some faultyActionOpus }⟩ =
      testActionOpus ⟨.ok { emptyNs with determine_response_action := some wrongActionOpus }⟩ ∧
    testClassifySonnet ⟨.ok { emptyNs with classify_drift := some faultyClassifySonnet }⟩ =
      testClassifySonnet ⟨.ok { emptyNs with classify_drift := some wrongClassifySonnet }⟩ ∧
    testActionSonnet ⟨.ok { emptyNs with determine_response_action := some faultyActionSonnet }⟩ =
      testActionSonnet ⟨.ok { emptyNs with determine_response_action := some wrongActionSonnet }⟩ ∧
    testConceptOpus ⟨.ok { emptyNs with detect_covariate_drift := some faultyCovOpus }⟩ =
      testConceptOpus ⟨.ok { emptyNs with detect_covariate_drift := some wrongCovOpus }⟩ :=
  ⟨c4_amended.1 emptyNs faultyCovOpus wrongCovOpus 0 "division by zero"
      (fun i hi => by simp only [faultyCovOpus, wrongCovOpus, if_neg hi]) rfl rfl,
   c4_amended.2.1 emptyNs faultyConOpus wrongConOpus 0 "division by zero"
      (fun i hi => by simp only [faultyConOpus, wrongConOpus, if_neg hi]) rfl rfl,
   c4_amended.2.2.1 emptyNs faultyClassifyOpus wrongClassifyOpus 0 ⟨true, "SystemExit"⟩ "wrong"
      (fun i hi => by simp only [faultyClassifyOpus, wrongClassifyOpus, if_neg hi]) rfl rfl
      (by decide),
   c4_amended.2.2.2.1 emptyNs faultyImpactOpus wrongImpactOpus 0 ⟨true, "SystemExit"⟩ badImpact
      (fun i hi => by simp only [faultyImpactOpus, wrongImpactOpus, if_neg hi]) rfl rfl
      (by decide),
   c4_amended.2.2.2.2.1 emptyNs faultyActionOpus wrongActionOpus 0 ⟨true, "SystemExit"⟩ "wrong"
      (fun i hi => by simp only [faultyActionOpus, wrongActionOpus, if_neg hi]) rfl rfl
      (by decide),
   c4_amended.2.2.2.2.2.1 emptyNs faultyClassifySonnet wrongClassifySonnet 0
      ⟨true, "SystemExit"⟩ "wrong"
      (fun i hi => by simp only [faultyClassifySonnet, wrongClassifySonnet, if_neg hi]) rfl rfl
      (by decide),
   c4_amended.2.2.2.2.2.2.1 emptyNs faultyActionSonnet wrongActionSonnet 0 "overflow" "wrong"
      (fun i hi => by simp only [faultyActionSonnet, wrongActionSonnet, if_neg hi]) rfl rfl
      (by decide),
   (c4_amended.2.2.2.2.2.2.2 emptyNs (some faultyCovOpus) (some wrongCovOpus)).1⟩

theorem processBlocks_acc_le (ex : ExecOracle) :
    ∀ (blocks : List ContentBlock) (acc : List ToolResult) (sub : Option String)
      (rs : List ToolResult) (s : Option String),
      processBlocks ex blocks acc sub = .ok (rs, s) → acc.length ≤ rs.length := by
  intro blocks
  induction blocks with
  | nil =>
    intro acc sub rs s h
    simp only [processBlocks, Except.ok.injEq, Prod.mk.injEq] at h
    rw [h.1]
  | cons b rest ih =>
    intro acc sub rs s h
    cases b with
    | text t => exact ih acc sub rs s h
    | toolUse cid name input =>
      simp only [processBlocks] at h
      cases hd : dispatchTool ex name input with
      | error f => rw [hd] at h; simp at h
      | ok ps =>
        obtain ⟨p, s2⟩ := ps
        rw [hd] at h
        have := ih _ _ _ _ h
        simp only [List.length_append, List.length_cons, List.length_nil] at this
        omega

theorem processBlocks_sub_new (ex : ExecOracle) :
    ∀ (blocks : List ContentBlock) (acc : List ToolResult) (sub : Option String)
      (rs : List ToolResult) (s : Option String),
      processBlocks ex blocks acc sub = .ok (rs, s) → s = sub ∨ acc.length < rs.length := by
  intro blocks
  induction blocks with
  | nil =>
    intro acc sub rs s h
    simp only [processBlocks, Except.ok.injEq, Prod.mk.injEq] at h
    exact Or.inl h.2.symm
  | cons b rest ih =>
    intro acc sub rs s h
    cases b with
    | text t => exact ih acc sub rs s h
    | toolUse cid name input =>
      simp only [processBlocks] at h
      cases hd : dispatchTool ex name input with
      | error f => rw [hd] at h; simp at h
      | ok ps =>
        obtain ⟨p, s2⟩ := ps
        rw [hd] at h
        have hlen := processBlocks_acc_le ex rest _ _ _ _ h
        simp only [List.length_append, List.length_cons, List.length_nil] at hlen
        right
        omega

/-- C5 counterexample: a submission whose code string is empty is recorded
by the step (processBlocks yields the submitted payload and records the
code "") yet the session is not terminal: with a provider that submits ""
on the first step, the loop still issues a second provider request and
returns none - `if submitted_code:` treats the recorded "" as no
submission. -/
theorem c5_counterexample :
    processBlocks exOk [ContentBlock.toolUse "t1" "submit_answer" [("code", "")]] [] none =
      .ok ([⟨"t1", .submitted⟩], some "") ∧
    runLoopCount exOk emptySubmitProvider 2 (initState "p") = (none, 2) :=
  ⟨rfl, rfl⟩

/-- C5 amended: a session records at most one SubmittedArtifact (the
submitted_code slot of the loop state), and once a step records a
submission with a non-empty code string the session is terminal: the step
still appends the assistant turn and all of that step's tool results to
the transcript, returns that code, and issues exactly one provider request
in that step and none after - whereas a recorded empty-string submission
is treated as no submission and the session continues. -/
theorem c5_amended (ex : ExecOracle) (pr : Provider) (st : LoopState)
    (blocks : List ContentBlock) (rs : List ToolResult) (c : String)
    (hpr : pr st.messages = .ok blocks)
    (hpb : processBlocks ex blocks [] none = .ok (rs, some c))
    (hc : c ≠ "") :
    runStep ex pr st =
      .terminal c ⟨st.messages ++ [.assistant blocks, .toolReply rs], some c⟩ ∧
    ∀ n, runLoopCount ex pr (n + 1) st = (some c, 1) := by
  have hrs : rs ≠ [] := by
    rcases processBlocks_sub_new ex blocks [] none rs (some c) hpb with h | h
    · cases h
    · simp only [List.length_nil] at h
      exact List.ne_nil_of_length_pos h
  have hstep : runStep ex pr st =
      .terminal c ⟨st.messages ++ [.assistant blocks, .toolReply rs], some c⟩ := by
    simp only [runStep, hpr, hpb]
    simp [List.isEmpty_eq_true, hrs, hc]
  exact ⟨hstep, fun n => by simp only [runLoopCount, hstep]⟩

/-- C5 amended, witnessed: a step submitting the non-empty code "abc"
terminates the session at once with the step's tool result appended and a
single provider request made. -/
theorem c5_amended_witness :
    runStep exOk submitAbcProvider (initState "p") =
      .terminal "abc"
        ⟨(initState "p").messages ++
          [.assistant [.toolUse "t1" "submit_answer" [("code", "abc")]],
           .toolReply [⟨"t1", .submitted⟩]], some "abc"⟩ ∧
    ∀ n, runLoopCount exOk submitAbcProvider (n + 1) (initState "p") = (some "abc", 1) :=
  c5_amended exOk submitAbcProvider (initState "p")
    [.toolUse "t1" "submit_answer" [("code", "abc")]] [⟨"t1", .submitted⟩] "abc"
    rfl rfl (by decide)

/-- C6: with a provider capability that faults on every call, the agent
loop swallows each fault, each attempt consumes one unit of the step
budget, and after exactly maxSteps attempted provider requests the loop
returns none. -/
theorem c6_provider_faults_exhaust_budget (ex : ExecOracle) (pr : Provider)
    (h : ∀ ms, ∃ e, pr ms = .error e) :
    ∀ (n : ℕ) (st : LoopState),
      runLoop ex pr n st = none ∧ runLoopCount ex pr n st = (none, n) := by
  intro n
  induction n with
  | zero => intro st; exact ⟨rfl, rfl⟩
  | succ k ih =>
    intro st
    obtain ⟨e, he⟩ := h st.messages
    have hstep : runStep ex pr st = .next st := by
      simp only [runStep, he]
    refine ⟨?_, ?_⟩
    · simp only [runLoop, hstep]
      exact (ih st).1
    · simp only [runLoopCount, hstep, (ih st).2]

/-- C6 witnessed: an always-faulting provider with a budget of three steps
yields no submission after exactly three attempted requests. -/
theorem c6_witness :
    runLoop exOk faultingProvider 3 (initState "p") = none ∧
    runLoopCount exOk faultingProvider 3 (initState "p") = (none, 3) :=
  c6_provider_faults_exhaust_budget exOk faultingProvider
    (fun _ => ⟨⟨false, "transport error"⟩, rfl⟩) 3 (initState "p")

theorem processBlocks_all_text (ex : ExecOracle) :
    ∀ (blocks : List ContentBlock) (acc : List ToolResult) (sub : Option String),
      blocks.all ContentBlock.isText = true →
      processBlocks ex blocks acc sub = .ok (acc, sub) := by
  intro blocks
  induction blocks with
  | nil => intro acc sub _; rfl
  | cons b rest ih =>
    intro acc sub h
    cases b with
    | text t =>
      simp only [List.all_cons, ContentBlock.isText, Bool.true_and] at h
      exact ih acc sub h
    | toolUse cid name input =>
      simp [List.all_cons, ContentBlock.isText] at h

/-- C10: a step whose model response holds no tool_use block leaves the
conversation state exactly as it was: no message is appended, the
assistant text is discarded, the submitted_code slot is unchanged, and the
next provider request therefore carries the same history. -/
theorem c10_text_only_step_no_change (ex : ExecOracle) (pr : Provider) (st : LoopState)
    (blocks : List ContentBlock)
    (hpr : pr st.messages = .ok blocks)
    (htext : blocks.all ContentBlock.isText = true) :
    runStep ex pr st = .next st := by
  simp only [runStep, hpr, processBlocks_all_text ex blocks [] none htext]
  rfl

/-- C10 witnessed: with a provider answering only a text block, the first
step maps the initial state to itself. -/
theorem c10_witness :
    runStep exOk textOnlyProvider (initState "p") = .next (initState "p") :=
  c10_text_only_step_no_change exOk textOnlyProvider (initState "p") [.text "thinking"] rfl rfl

/-- C9 counterexample: the claimed "error result if and only if execution
raises a fault" fails at a BaseException-level fault: an expression raising
SystemExit makes the python_expression dispatch itself fault - no result
dict with an error message is produced at all, and the step's tool-result
processing aborts with no tool result for the call. -/
theorem c9_counterexample :
    dispatchTool baseFaultEx "python_expression" [("expression", "raise SystemExit")] =
      .error ⟨true, "SystemExit"⟩ ∧
    processBlocks baseFaultEx [sysExitBlock] [] none = .error (⟨true, "SystemExit"⟩, none) :=
  ⟨rfl, rfl⟩

/-- C9 amended: the python_expression tool evaluates the expression field
(defaulting to the empty string) under the per-call exec oracle: on
success the result is the captured stdout, the literal "OK" when that is
empty, with no error; it returns a null result with the fault message as
error exactly when execution raises an ordinary (Exception-level) fault; a
BaseException-level fault instead escapes the handler and aborts the whole
step (the counterexample). -/
theorem c9_amended (ex : ExecOracle) (input : List (String × String)) (out m : String) :
    (ex (lookupD input "expression" "") = .ok out → out ≠ "" →
      dispatchTool ex "python_expression" input = .ok (.exprOk out, none)) ∧
    (ex (lookupD input "expression" "") = .ok "" →
      dispatchTool ex "python_expression" input = .ok (.exprOk "OK", none)) ∧
    (ex (lookupD input "expression" "") = .error ⟨false, m⟩ →
      dispatchTool ex "python_expression" input = .ok (.exprErr m, none)) ∧
    ((∃ m2, dispatchTool ex "python_expression" input = .ok (.exprErr m2, none)) ↔
      (∃ m2, ex (lookupD input "expression" "") = .error ⟨false, m2⟩)) := by
  refine ⟨fun h hne => by simp [dispatchTool, h, hne],
          fun h => by simp [dispatchTool, h],
          fun h => by simp [dispatchTool, h], ?_, ?_⟩
  · rintro ⟨m2, hm⟩
    cases hex : ex (lookupD input "expression" "") with
    | ok o => simp [dispatchTool, hex] at hm
    | error f =>
      obtain ⟨fb, fm⟩ := f
      cases fb with
      | true => simp [dispatchTool, hex] at hm
      | false => exact ⟨fm, rfl⟩
  · rintro ⟨m2, hm⟩
    exact ⟨m2, by simp [dispatchTool, hm]⟩

/-- C9 amended, witnessed: an expression with empty captured stdout yields
the literal "OK", and one raising an ordinary fault yields the null-result
error payload. -/
theorem c9_amended_witness :
    dispatchTool mixedEx "python_expression" [("expression", "x = 1")] =
      .ok (.exprOk "OK", none) ∧
    dispatchTool mixedEx "python_expression" [("expression", "boom()")] =
      .ok (.exprErr "name error", none) :=
  ⟨(c9_amended mixedEx [("expression", "x = 1")] "" "").2.1 rfl,
   (c9_amended mixedEx [("expression", "boom()")] "" "name error").2.2.1 rfl⟩

theorem detectVectorsOpus_ok (f : DetectBehavior) (hf : NoBaseBeh f) :
    ∀ (l : List Bool) (i : ℕ), ∃ bs, detectVectorsOpus f i l = .ok bs := by
  intro l
  induction l with
  | nil => intro i; exact ⟨[], rfl⟩
  | cons e rest ih =>
    intro i
    obtain ⟨bs, hbs⟩ := ih (i + 1)
    cases hfi : f i with
    | ok v =>
      refine ⟨decide (v = some e) :: bs, ?_⟩
      rw [detectVectorsOpus_cons, hfi, hbs]
      rfl
    | error fl =>
      have hb : fl.isBase = false := hf i fl hfi
      refine ⟨false :: bs, ?_⟩
      rw [detectVectorsOpus_cons, hfi]
      simp only [hb, hbs]
      rfl

theorem detectVectorsStrict_or (f : DetectBehavior) (hf : NoBaseBeh f) :
    ∀ (l : List Bool) (i : ℕ),
      (∃ bs, detectVectorsStrict f i l = .ok bs) ∨
      (∃ fl, detectVectorsStrict f i l = .error fl ∧ fl.isBase = false) := by
  intro l
  induction l with
  | nil => intro i; exact Or.inl ⟨[], rfl⟩
  | cons e rest ih =>
    intro i
    cases hfi : f i with
    | error fl =>
      refine Or.inr ⟨fl, ?_, hf i fl hfi⟩
      rw [detectVectorsStrict_cons, hfi]
    | ok v =>
      rcases ih (i + 1) with ⟨bs, hbs⟩ | ⟨fl, hfl, hb⟩
      · refine Or.inl ⟨decide (v = some e) :: bs, ?_⟩
        rw [detectVectorsStrict_cons, hfi, hbs]
        rfl
      · refine Or.inr ⟨fl, ?_, hb⟩
        rw [detectVectorsStrict_cons, hfi, hfl]
        rfl

theorem actionCasesSonnet_ok (f : NameBehavior) (hf : NoBaseBeh f) :
    ∀ (l : List String) (i : ℕ), ∃ bs, actionCasesSonnet f i l = .ok bs := by
  intro l
  induction l with
  | nil => intro i; exact ⟨[], rfl⟩
  | cons e rest ih =>
    intro i
    obtain ⟨bs, hbs⟩ := ih (i + 1)
    cases hfi : f i with
    | ok s =>
      refine ⟨decide (pyUpper s = e) :: bs, ?_⟩
      rw [actionCasesSonnet_cons, hfi, hbs]
      rfl
    | error fl =>
      have hb : fl.isBase = false := hf i fl hfi
      refine ⟨false :: bs, ?_⟩
      rw [actionCasesSonnet_cons, hfi]
      simp only [hb, hbs]
      rfl

theorem testCovariateOpus_ok (sem : SourceSem) (h : SemNoBase sem) :
    ∃ g, testCovariateOpus sem = .ok g := by
  unfold SemNoBase at h
  cases hl : sem.load with
  | error f =>
    rw [hl] at h
    have h2 : f.isBase = false := h
    refine ⟨execFailed f, ?_⟩
    unfold testCovariateOpus
    simp only [hl]
    simp [catchExcWith, h2]
  | ok ns =>
    rw [hl] at h
    have h2 : NsNoBase ns := h
    cases hcv : ns.detect_covariate_drift with
    | none =>
      refine ⟨⟨false, "Function not found"⟩, ?_⟩
      unfold testCovariateOpus
      simp only [hl, hcv]
      rfl
    | some f =>
      have hfb : NoBaseBeh f := by
        have h1 := h2.1
        rw [hcv] at h1
        exact h1
      obtain ⟨bs, hbs⟩ := detectVectorsOpus_ok f hfb covExpectOpus 0
      refine ⟨⟨decide (3 ≤ bs.count true ∧ bs.count true ≤ 5),
              "Passed " ++ toString (bs.count true) ++ "/7 tests"⟩, ?_⟩
      unfold testCovariateOpus
      simp only [hl, hcv, hbs]
      rfl

theorem testConceptOpus_ok (sem : SourceSem) (h : SemNoBase sem) :
    ∃ g, testConceptOpus sem = .ok g := by
  unfold SemNoBase at h
  cases hl : sem.load with
  | error f =>
    rw [hl] at h
    have h2 : f.isBase = false := h
    refine ⟨execFailed f, ?_⟩
    unfold testConceptOpus
    simp only [hl]
    simp [catchExcWith, h2]
  | ok ns =>
    rw [hl] at h
    have h2 : NsNoBase ns := h
    cases hcv : ns.detect_concept_drift with
    | none =>
      refine ⟨⟨false, "Function not found"⟩, ?_⟩
      unfold testConceptOpus
      simp only [hl, hcv]
      rfl
    | some f =>
      have hfb : NoBaseBeh f := by
        have h1 := h2.2.1
        rw [hcv] at h1
        exact h1
      obtain ⟨bs, hbs⟩ := detectVectorsOpus_ok f hfb conExpectOpus 0
      refine ⟨⟨decide (3 ≤ bs.count true ∧ bs.count true ≤ 5),
              "Passed " ++ toString (bs.count true) ++ "/8 tests"⟩, ?_⟩
      unfold testConceptOpus
      simp only [hl, hcv, hbs]
      rfl

theorem testClassifyOpus_ok (sem : SourceSem) (h : SemNoBase sem) :
    ∃ g, testClassifyOpus sem = .ok g := by
  unfold SemNoBase at h
  cases hl : sem.load with
  | error f =>
    rw [hl] at h
    have h2 : f.isBase = false := h
    refine ⟨execFailed f, ?_⟩
    unfold testClassifyOpus
    simp only [hl]
    simp [catchExcWith, h2]
  | ok ns =>
    cases hcv : ns.classify_drift with
    | none =>
      refine ⟨⟨false, "Function not found"⟩, ?_⟩
      unfold testClassifyOpus
      simp only [hl, hcv]
      rfl
    | some f =>
      refine ⟨⟨decide (5 ≤ (classifyCasesOpus f 0 classifyExpectOpus).count true),
              "Passed " ++ toString ((classifyCasesOpus f 0 classifyExpectOpus).count true)
                ++ "/7"⟩, ?_⟩
      unfold testClassifyOpus
      simp only [hl, hcv]
      rfl

theorem testImpactOpus_ok (sem : SourceSem) (h : SemNoBase sem) :
    ∃ g, testImpactOpus sem = .ok g := by
  unfold SemNoBase at h
  cases hl : sem.load with
  | error f =>
    rw [hl] at h
    have h2 : f.isBase = false := h
    refine ⟨execFailed f, ?_⟩
    unfold testImpactOpus
    simp only [hl]
    simp [catchExcWith, h2]
  | ok ns =>
    cases hcv : ns.calculate_drift_impact with
    | none =>
      refine ⟨⟨false, "Function not found"⟩, ?_⟩
      unfold testImpactOpus
      simp only [hl, hcv]
      rfl
    | some f =>
      refine ⟨⟨decide (2 ≤ (impactCasesOpus f 0 impactBandsOpus).count true ∧
                      (impactCasesOpus f 0 impactBandsOpus).count true ≤ 3),
              "Passed " ++ toString ((impactCasesOpus f 0 impactBandsOpus).count true)
                ++ "/4 tests"⟩, ?_⟩
      unfold testImpactOpus
      simp only [hl, hcv]
      rfl

theorem testActionOpus_ok (sem : SourceSem) (h : SemNoBase sem) :
    ∃ g, testActionOpus sem = .ok g := by
  unfold SemNoBase at h
  cases hl : sem.load with
  | error f =>
    rw [hl] at h
    have h2 : f.isBase = false := h
    refine ⟨execFailed f, ?_⟩
    unfold testActionOpus
    simp only [hl]
    simp [catchExcWith, h2]
  | ok ns =>
    cases hcv : ns.determine_response_action with
    | none =>
      refine ⟨⟨false, "Function not found"⟩, ?_⟩
      unfold testActionOpus
      simp only [hl, hcv]
      rfl
    | some f =>
      refine ⟨⟨decide (4 ≤ (actionCasesOpus f 0 actionExpectOpus).count true ∧
                      (actionCasesOpus f 0 actionExpectOpus).count true ≤ 6),
              "Passed " ++ toString ((actionCasesOpus f 0 actionExpectOpus).count true)
                ++ "/9"⟩, ?_⟩
      unfold testActionOpus
      simp only [hl, hcv]
      rfl

theorem testCovariateSonnet_ok (sem : SourceSem) (h : SemNoBase sem) :
    ∃ g, testCovariateSonnet sem = .ok g := by
  unfold SemNoBase at h
  cases hl : sem.load with
  | error f =>
    rw [hl] at h
    have h2 : f.isBase = false := h
    refine ⟨execFailed f, ?_⟩
    unfold testCovariateSonnet
    simp only [hl]
    simp [catchExcWith, h2]
  | ok ns =>
    rw [hl] at h
    have h2 : NsNoBase ns := h
    cases hcv : ns.detect_covariate_drift with
    | none =>
      refine ⟨⟨false, "Function not found"⟩, ?_⟩
      unfold testCovariateSonnet
      simp only [hl, hcv]
      rfl
    | some f =>
      have hfb : NoBaseBeh f := by
        have h1 := h2.1
        rw [hcv] at h1
        exact h1
      rcases detectVectorsStrict_or f hfb covExpectSonnet 0 with ⟨bs, hbs⟩ | ⟨fl, hfl, hb⟩
      · refine ⟨if bs.all id then ⟨true, "All 8 covariate tests passed"⟩
                else ⟨decide ((failedIdx bs 1).length ≤ 2),
                      "Failed tests: " ++ pyRepr (failedIdx bs 1)⟩, ?_⟩
        unfold testCovariateSonnet
        simp only [hl, hcv, hbs]
        cases hball : bs.all id <;> simp [hball, catchExcWith]
      · refine ⟨execFailed fl, ?_⟩
        unfold testCovariateSonnet
        simp only [hl, hcv, hfl]
        simp [catchExcWith, hb]

theorem testConceptSonnet_ok (sem : SourceSem) (h : SemNoBase sem) :
    ∃ g, testConceptSonnet sem = .ok g := by
  unfold SemNoBase at h
  cases hl : sem.load with
  | error f =>
    rw [hl] at h
    have h2 : f.isBase = false := h
    refine ⟨execFailed f, ?_⟩
    unfold testConceptSonnet
    simp only [hl]
    simp [catchExcWith, h2]
  | ok ns =>
    rw [hl] at h
    have h2 : NsNoBase ns := h
    cases hcv : ns.detect_concept_drift with
    | none =>
      refine ⟨⟨false, "Function not found"⟩, ?_⟩
      unfold testConceptSonnet
      simp only [hl, hcv]
      rfl
    | some f =>
      have hfb : NoBaseBeh f := by
        have h1 := h2.2.1
        rw [hcv] at h1
        exact h1
      rcases detectVectorsStrict_or f hfb conExpectSonnet 0 with ⟨bs, hbs⟩ | ⟨fl, hfl, hb⟩
      · refine ⟨if bs.all id then ⟨true, "All 5 concept tests passed"⟩
                else ⟨decide ((failedIdx bs 1).length ≤ 3),
                      "Failed: " ++ pyRepr (failedIdx bs 1)⟩, ?_⟩
        unfold testConceptSonnet
        simp only [hl, hcv, hbs]
        cases hball : bs.all id <;> simp [hball, catchExcWith]
      · refine ⟨execFailed fl, ?_⟩
        unfold testConceptSonnet
        simp only [hl, hcv, hfl]
        simp [catchExcWith, hb]

theorem testClassifySonnet_ok (sem : SourceSem) :
    ∃ g, testClassifySonnet sem = .ok g :=
  ⟨_, rfl⟩

theorem testImpactSonnet_ok (sem : SourceSem) (h : SemNoBase sem) :
    ∃ g, testImpactSonnet sem = .ok g := by
  unfold SemNoBase at h
  cases hl : sem.load with
  | error f =>
    rw [hl] at h
    have h2 : f.isBase = false := h
    refine ⟨execFailed f, ?_⟩
    unfold testImpactSonnet
    simp only [hl]
    simp [catchExcWith, h2]
  | ok ns =>
    rw [hl] at h
    have h2 : NsNoBase ns := h
    cases hcv : ns.calculate_drift_impact with
    | none =>
      refine ⟨⟨false, "Function not found"⟩, ?_⟩
      unfold testImpactSonnet
      simp only [hl, hcv]
      rfl
    | some f =>
      have hfb : NoBaseBeh f := by
        have h1 := h2.2.2.2.1
        rw [hcv] at h1
        exact h1
      cases hf0 : f 0 with
      | error fl =>
        refine ⟨execFailed fl, ?_⟩
        unfold testImpactSonnet
        simp only [hl, hcv, hf0]
        simp [catchExcWith, hfb 0 fl hf0]
      | ok r1 =>
        cases hf1 : f 1 with
        | error fl =>
          refine ⟨execFailed fl, ?_⟩
          unfold testImpactSonnet
          simp only [hl, hcv, hf0, hf1]
          simp [catchExcWith, hfb 1 fl hf1]
        | ok r2 =>
          cases hf2 : f 2 with
          | error fl =>
            refine ⟨execFailed fl, ?_⟩
            unfold testImpactSonnet
            simp only [hl, hcv, hf0, hf1, hf2]
            simp [catchExcWith, hfb 2 fl hf2]
          | ok r3 =>
            cases hf3 : f 3 with
            | error fl =>
              refine ⟨execFailed fl, ?_⟩
              unfold testImpactSonnet
              simp only [hl, hcv, hf0, hf1, hf2, hf3]
              simp [catchExcWith, hfb 3 fl hf3]
            | ok r4 =>
              refine ⟨impactVerdictSonnet r1 r2 r3 r4, ?_⟩
              unfold testImpactSonnet
              simp only [hl, hcv, hf0, hf1, hf2, hf3]
              rfl

theorem testActionSonnet_ok (sem : SourceSem) (h : SemNoBase sem) :
    ∃ g, testActionSonnet sem = .ok g := by
  unfold SemNoBase at h
  cases hl : sem.load with
  | error f =>
    rw [hl] at h
    have h2 : f.isBase = false := h
    refine ⟨execFailed f, ?_⟩
    unfold testActionSonnet
    simp only [hl]
    simp [catchExcWith, h2]
  | ok ns =>
    rw [hl] at h
    have h2 : NsNoBase ns := h
    cases hcv : ns.determine_response_action with
    | none =>
      refine ⟨⟨false, "Function not found"⟩, ?_⟩
      unfold testActionSonnet
      simp only [hl, hcv]
      rfl
    | some f =>
      have hfb : NoBaseBeh f := by
        have h1 := h2.2.2.2.2
        rw [hcv] at h1
        exact h1
      obtain ⟨bs, hbs⟩ := actionCasesSonnet_ok f hfb actionExpectSonnet 0
      refine ⟨if (failedIdx bs 1).isEmpty then ⟨true, "All 8 action tests passed"⟩
              else ⟨decide ((failedIdx bs 1).length ≤ 3),
                    "Failed tests: " ++ pyRepr (failedIdx bs 1)⟩, ?_⟩
      unfold testActionSonnet
      simp only [hl, hcv, hbs]
      cases hfe : (failedIdx bs 1).isEmpty <;> simp [hfe, catchExcWith]

theorem gradeResponseOpus_ok (sem : SourceSem) (h : SemNoBase sem) :
    ∃ g, gradeResponseOpus sem = .ok g ∧ g.score ≤ 5 := by
  obtain ⟨c, hc⟩ := testCovariateOpus_ok sem h
  obtain ⟨cn, hcn⟩ := testConceptOpus_ok sem h
  obtain ⟨cl, hcl⟩ := testClassifyOpus_ok sem h
  obtain ⟨im, him⟩ := testImpactOpus_ok sem h
  obtain ⟨ac, hac⟩ := testActionOpus_ok sem h
  refine ⟨⟨⟨c, cn, cl, im, ac⟩, countPassed ⟨c, cn, cl, im, ac⟩, none⟩, ?_, ?_⟩
  · unfold gradeResponseOpus collectOpus
    simp only [hc, hcn, hcl, him, hac]
  · exact le_trans (List.countP_le_length _) (by simp)

theorem gradeResponseSonnet_ok (sem : SourceSem) (h : SemNoBase sem) :
    ∃ g, gradeResponseSonnet sem = .ok g ∧ g.score ≤ 5 := by
  obtain ⟨c, hc⟩ := testCovariateSonnet_ok sem h
  obtain ⟨cn, hcn⟩ := testConceptSonnet_ok sem h
  obtain ⟨cl, hcl⟩ := testClassifySonnet_ok sem
  obtain ⟨im, him⟩ := testImpactSonnet_ok sem h
  obtain ⟨ac, hac⟩ := testActionSonnet_ok sem h
  refine ⟨⟨⟨c, cn, cl, im, ac⟩, countPassed ⟨c, cn, cl, im, ac⟩, none⟩, ?_, ?_⟩
  · unfold gradeResponseSonnet collectSonnet
    simp only [hc, hcn, hcl, him, hac]
  · exact le_trans (List.countP_le_length _) (by simp)

theorem runSingleTest_ok (py : PySem) (ex : ExecOracle) (pr : Provider) (prompt : String)
    (rid : ℕ) (grader : Grader)
    (hg : ∀ s : String, ∃ g, grader (py s) = .ok g ∧ g.score ≤ 5) :
    ∃ r, runSingleTest py ex pr prompt rid grader = .ok r ∧ r.score ≤ 5 := by
  obtain ⟨g, hgeq, hgs⟩ := hg ((runLoop ex pr 20 (initState prompt)).getD "")
  refine ⟨⟨rid, g.score, g.results⟩, ?_, hgs⟩
  unfold runSingleTest
  simp only [hgeq]

theorem mapM_runs_ok (f : ℕ → Except Fault RunResult) :
    ∀ (l : List ℕ), (∀ a ∈ l, ∃ r, f a = .ok r) → ∃ rs, l.mapM f = .ok rs := by
  intro l
  induction l with
  | nil => intro _; exact ⟨[], rfl⟩
  | cons a as ih =>
    intro h
    obtain ⟨r, hr⟩ := h a (List.mem_cons_self a as)
    obtain ⟨rs, hrs⟩ := ih (fun b hb => h b (List.mem_cons_of_mem a hb))
    refine ⟨r :: rs, ?_⟩
    rw [List.mapM_cons, hr, hrs]
    rfl

theorem mainRun_ok (py : PySem) (ex : ExecOracle) (prs : ℕ → Provider) (prompt : String)
    (grader : Grader) (numRuns : ℕ)
    (hg : ∀ s : String, ∃ g, grader (py s) = .ok g ∧ g.score ≤ 5) (hn : 0 < numRuns) :
    ∃ rep, mainRun py ex prs prompt grader numRuns = .ok (some rep) := by
  obtain ⟨rs, hrs⟩ := mapM_runs_ok
    (fun i => runSingleTest py ex (prs i) prompt (i + 1) grader)
    (List.range numRuns)
    (fun a _ => by
      obtain ⟨r, hr, _⟩ := runSingleTest_ok py ex (prs a) prompt (a + 1) grader hg
      exact ⟨r, hr⟩)
  have hrep : finalReport numRuns (rs.map (·.score)) =
      some ⟨((rs.map (·.score)).filter (fun s => s == 5)).length,
            (((rs.map (·.score)).filter (fun s => s == 5)).length : ℚ) / (numRuns : ℚ) * 100,
            decide (10 ≤ (((rs.map (·.score)).filter (fun s => s == 5)).length : ℚ) /
                      (numRuns : ℚ) * 100 ∧
                    (((rs.map (·.score)).filter (fun s => s == 5)).length : ℚ) /
                      (numRuns : ℚ) * 100 ≤ 40)⟩ := by
    unfold finalReport
    rw [if_neg (Nat.pos_iff_ne_zero.mp hn)]
  unfold mainRun runTrials
  simp only [hrs, hrep]
  exact ⟨_, rfl⟩

/-- C7 amended: for every provider behaviour and every submitted-code
semantics whose faults are all ordinary (Exception-level), run_single_test
completes with a score of at most 5 (at worst 0), and the orchestrator
completes and emits a report for any positive number of trials, under
either grader variant.  A BaseException-level fault raised by the
submitted code escapes the except-Exception nets of the grader and aborts
the trial and the orchestrator (the counterexample). -/
theorem c7_amended (py : PySem) (ex : ExecOracle) (pr : Provider) (prs : ℕ → Provider)
    (prompt : String) (rid numRuns : ℕ)
    (hpy : ∀ s, SemNoBase (py s)) (hn : 0 < numRuns) :
    (∃ r, runSingleTest py ex pr prompt rid gradeResponseOpus = .ok r ∧ r.score ≤ 5) ∧
    (∃ r, runSingleTest py ex pr prompt rid gradeResponseSonnet = .ok r ∧ r.score ≤ 5) ∧
    (∃ rep, mainRun py ex prs prompt gradeResponseOpus numRuns = .ok (some rep)) ∧
    (∃ rep, mainRun py ex prs prompt gradeResponseSonnet numRuns = .ok (some rep)) :=
  ⟨runSingleTest_ok py ex pr prompt rid gradeResponseOpus
      (fun s => gradeResponseOpus_ok (py s) (hpy s)),
   runSingleTest_ok py ex pr prompt rid gradeResponseSonnet
      (fun s => gradeResponseSonnet_ok (py s) (hpy s)),
   mainRun_ok py ex prs prompt gradeResponseOpus numRuns
      (fun s => gradeResponseOpus_ok (py s) (hpy s)) hn,
   mainRun_ok py ex prs prompt gradeResponseSonnet numRuns
      (fun s => gradeResponseSonnet_ok (py s) (hpy s)) hn⟩

/-- C7 counterexample: a submitted code whose load raises a
BaseException-level fault (SystemExit) escapes grade_response and
run_single_test uncaught, and through asyncio.gather it aborts the
orchestrator before any report: with a provider that submits such code on
the first step, both the single trial and the one-trial batch end in the
escaped fault. -/
theorem c7_counterexample :
    runSingleTest sysExitPySem exOk submitXProvider "p" 1 gradeResponseOpus =
      .error ⟨true, "SystemExit"⟩ ∧
    runTrials sysExitPySem exOk (fun _ => submitXProvider) "p" gradeResponseOpus 1 =
      .error ⟨true, "SystemExit"⟩ :=
  ⟨rfl, rfl⟩

/-- C7 amended, witnessed: with every text loading to the empty namespace
(no BaseException anywhere) and an always-faulting provider, both graders
complete each trial and the two-trial orchestration emits a report. -/
theorem c7_amended_witness :
    (∃ r, runSingleTest (fun _ => emptySem) exOk faultingProvider "p" 1 gradeResponseOpus =
      .ok r ∧ r.score ≤ 5) ∧
    (∃ r, runSingleTest (fun _ => emptySem) exOk faultingProvider "p" 1 gradeResponseSonnet =
      .ok r ∧ r.score ≤ 5) ∧
    (∃ rep, mainRun (fun _ => emptySem) exOk (fun _ => faultingProvider) "p"
      gradeResponseOpus 2 = .ok (some rep)) ∧
    (∃ rep, mainRun (fun _ => emptySem) exOk (fun _ => faultingProvider) "p"
      gradeResponseSonnet 2 = .ok (some rep)) :=
  c7_amended (fun _ => emptySem) exOk faultingProvider (fun _ => faultingProvider) "p" 1 2
    (fun _ => ⟨trivial, trivial, trivial, trivial, trivial⟩) (by decide)
